import Mathlib

/-!
# Dashboard view navigation and the progressive form stepper

A shallow embedding of the dashboard part of `static/js/organizer.js`:

* `showView` (lines 65-83), the view switch behind the sidebar links;
* the start-up check of the navigation intent kept in `localStorage`
  (lines 97-107);
* `updateFormSteps` and the click handlers of the next and previous buttons
  (lines 110-147);
* the submit handler of the event form (lines 258-287), the search over the
  event table (lines 205-255) and the file handlers (lines 186-195, 292-320);

and of four parts of `static/js/student.js`: `getCSRFToken` and
`getCSRFHeaders` (lines 33-55), the submit handler of the organizer signup
form (lines 248-266), the profile upload (lines 461-476) and the search bar
(lines 532-551).

The document is a list of elements in document order.  The two node lists
the script takes once at load, `sidebarLinks` and `dashboardViews`, are
recorded as flags on the elements, since `querySelectorAll` returns a static
list that later class changes do not alter.  Two methods of the browser are
parameters of the embedding: the selector engine on the selector texts that
are not a plain attribute test (`SelectorEngine`), and `toLowerCase`.
-/

namespace Dashboard

/-! ## Class lists -/

/-- The effect of `classList.add(c)`: the token is appended unless present. -/
def classAdd (c : String) (cl : List String) : List String :=
  if c ∈ cl then cl else cl ++ [c]

/-- The effect of `classList.remove(c)`. -/
def classRemove (c : String) (cl : List String) : List String :=
  cl.filter fun x => x != c

/-- The effect of `classList.toggle(c, force)` with the second argument
given: `add` when it is true, `remove` when it is false. -/
def classToggle (c : String) (force : Bool) (cl : List String) : List String :=
  if force then classAdd c cl else classRemove c cl

/-! ## Elements and documents -/

/-- One element of the page, with what `showView` reads and writes.
`id` is the `id` property (the empty string when the attribute is missing),
`dataView` the `data-view` attribute, `sidebarLink` says that the element is
in the node list `.sidebar-nav li`, `dashboardView` that it is in the node
list `.dashboard-view`. -/
structure Element where
  id : String
  classes : List String
  dataView : Option String
  sidebarLink : Bool
  dashboardView : Bool
deriving DecidableEq, Repr

/-- The page: its elements in document order. -/
abbrev Doc := List Element

/-- An element is shown when its class list does not hold `hidden`. -/
def Element.visible (e : Element) : Bool := !(e.classes.contains "hidden")

/-- An element is marked when its class list holds `active`. -/
def Element.active (e : Element) : Bool := e.classes.contains "active"

/-- A navigation link: an element that carries a `data-view` target. -/
def Element.navLink (e : Element) : Bool := e.dataView.isSome

/-! ## showView -/

/-- The characters that end or escape the quoted value in the selector text
`[data-view="..."]`: the double quote, the backslash, the line breaks the
CSS tokenizer knows (LF, CR, FF) and NUL, which it replaces. -/
def selectorBreaking (c : Char) : Bool :=
  c.toNat == 34 || c.toNat == 92 || c.toNat == 10 || c.toNat == 13 ||
    c.toNat == 12 || c.toNat == 0

/-- The view id can be spliced between the quotes of `[data-view="..."]`
and the text is still the attribute test for that very id. -/
def selectorSafe (viewId : String) : Bool :=
  viewId.toList.all fun c => !selectorBreaking c

/-- The callback of line 67, run on one element of `sidebarLinks`:
`item.classList.remove('active')`. -/
def deselectLink (e : Element) : Element :=
  if e.sidebarLink then { e with classes := classRemove "active" e.classes } else e

/-- Line 67: `sidebarLinks.forEach(...)`. -/
def deselectLinks (doc : Doc) : Doc := doc.map deselectLink

/-- Lines 70-73 for a safe id: `document.querySelector` finds the first
element of the document whose `data-view` equals the id, and that element,
if there is one, gets `active`. -/
def markMatchingLink (viewId : String) : Doc → Doc
  | [] => []
  | e :: es =>
    if e.dataView = some viewId then
      { e with classes := classAdd "active" e.classes } :: es
    else e :: markMatchingLink viewId es

/-- The callback of lines 76-82, run on one element of `dashboardViews`:
the element loses `hidden` when its id is the view id and gets `hidden`
otherwise. -/
def toggleView (viewId : String) (e : Element) : Element :=
  if e.dashboardView then
    if e.id = viewId then { e with classes := classRemove "hidden" e.classes }
    else { e with classes := classAdd "hidden" e.classes }
  else e

/-- Lines 76-82: `dashboardViews.forEach(...)`. -/
def toggleViews (viewId : String) (doc : Doc) : Doc := doc.map (toggleView viewId)

/-- What `document.querySelector` does on line 70: it raises `SyntaxError`
because the text is not a valid selector, it returns `null`, or it returns
an element of the document, given by its position. -/
inductive Lookup where
  | raises
  | missing
  | element (i : Nat)
deriving DecidableEq, Repr

/-- The selector engine of the browser on the texts `[data-view="..."]` whose
id is not `selectorSafe`, as a function of the id and the document.  Such a
text is not the attribute test for the id: the engine rejects some
(`[data-view="a"b"]`), reads others as the test for another value (an id
with a backslash escape) or as a list of selectors.  The engine is not part
of the script and is a parameter of the embedding. -/
abbrev SelectorEngine := String → Doc → Lookup

/-- Line 72 on the element of position `i`: `matchingLink.classList.add('active')`. -/
def markElement : Nat → Doc → Doc
  | _, [] => []
  | 0, e :: es => { e with classes := classAdd "active" e.classes } :: es
  | i + 1, e :: es => e :: markElement i es

/-- The function `window.showView` (lines 65-83).  `.ok d` is the document
after the call returned.  `.error d` is the document left behind when
`document.querySelector` raised `SyntaxError` on line 70, after the links
were deselected and before any view was touched.  Line 70 splices the id
into the selector text unescaped.  For an id of `selectorSafe` the text is
the attribute test for that id, and the first element with that `data-view`
is marked.  For any other id the outcome of the lookup is the one of the
engine: the call raises, or it marks the element found, if any, and goes on
to the view containers. -/
def showView (engine : SelectorEngine) (viewId : String) (doc : Doc) : Except Doc Doc :=
  let doc1 := deselectLinks doc
  if selectorSafe viewId then
    .ok (toggleViews viewId (markMatchingLink viewId doc1))
  else
    match engine viewId doc1 with
    | .raises => .error doc1
    | .missing => .ok (toggleViews viewId doc1)
    | .element i => .ok (toggleViews viewId (markElement i doc1))

/-- The view containers of a document that are shown. -/
def visibleViews (doc : Doc) : List Element :=
  doc.filter fun e => e.dashboardView && e.visible

/-- The navigation links of a document that are marked active. -/
def activeNavLinks (doc : Doc) : List Element :=
  doc.filter fun e => e.navLink && e.active

/-- The ids of the view containers, in document order. -/
def viewIds (doc : Doc) : List String :=
  (doc.filter fun e => e.dashboardView).map fun e => e.id

/-! ## The navigation intent kept in localStorage -/

/-- The string store `localStorage`: keys with their values. -/
abbrev Storage := List (String × String)

/-- The call `localStorage.getItem(key)`: the value, or `none` for `null`. -/
def getItem (key : String) (ls : Storage) : Option String :=
  (ls.find? fun kv => kv.1 == key).map fun kv => kv.2

/-- The call `localStorage.removeItem(key)`. -/
def removeItem (key : String) (ls : Storage) : Storage :=
  ls.filter fun kv => kv.1 != key

/-- The start-up check of lines 97-107.  A call of `showView` that raises
leaves the rest of the branch undone (the error goes to the `catch` of line
185), so the key is then not removed. -/
def checkStoredNavigation (engine : SelectorEngine) (ls : Storage) (doc : Doc) :
    Except (Storage × Doc) (Storage × Doc) :=
  if getItem "showCreateEvent" ls = some "true" then
    match showView engine "create-event-view" doc with
    | .ok d => .ok (removeItem "showCreateEvent" ls, d)
    | .error d => .error (ls, d)
  else if getItem "showProfile" ls = some "true" then
    match showView engine "profile-page" doc with
    | .ok d => .ok (removeItem "showProfile" ls, d)
    | .error d => .error (ls, d)
  else
    match showView engine "dashboard-overview" doc with
    | .ok d => .ok (ls, d)
    | .error d => .error (ls, d)

/-! ## The progressive form -/

/-- The state of the progressive form: the class lists of the elements of
`formSteps` in order, the class lists of the three buttons (`none` when
`getElementById` gave `null`), and the variable `currentStep`.  The steps
and the buttons are kept as separate class lists: the handlers touch the
class `active` on the steps only and the class `hidden` on the buttons
only. -/
structure FormStepper where
  formSteps : List (List String)
  prevBtn : Option (List String)
  nextBtn : Option (List String)
  submitBtn : Option (List String)
  currentStep : Int
deriving DecidableEq, Repr

/-- Lines 119-121: `formSteps.forEach((step, index) => ...)`, started at
`index`; each step gets `active` exactly when its index is `currentStep`. -/
def toggleSteps (currentStep : Int) : Nat → List (List String) → List (List String)
  | _, [] => []
  | index, step :: rest =>
    classToggle "active" (decide ((index : Int) = currentStep)) step ::
      toggleSteps currentStep (index + 1) rest

/-- The function `updateFormSteps` (lines 116-126). -/
def updateFormSteps (s : FormStepper) : FormStepper :=
  if s.formSteps.length = 0 then s
  else
    { s with
      formSteps := toggleSteps s.currentStep 0 s.formSteps
      prevBtn := s.prevBtn.map (classToggle "hidden" (decide (s.currentStep = 0)))
      nextBtn := s.nextBtn.map
        (classToggle "hidden" (decide (s.currentStep = (s.formSteps.length : Int) - 1)))
      submitBtn := s.submitBtn.map
        (classToggle "hidden" (decide (s.currentStep ≠ (s.formSteps.length : Int) - 1))) }

/-- The click handler of the next button (lines 129-134).  It is registered
only when the button exists. -/
def nextBtnClick (s : FormStepper) : FormStepper :=
  if s.currentStep < (s.formSteps.length : Int) - 1 then
    updateFormSteps { s with currentStep := s.currentStep + 1 }
  else s

/-- The click handler of the previous button (lines 138-143).  It is
registered only when the button exists. -/
def prevBtnClick (s : FormStepper) : FormStepper :=
  if s.currentStep > 0 then
    updateFormSteps { s with currentStep := s.currentStep - 1 }
  else s

/-- The form right after the script ran: `currentStep` is 0 (line 114) and
`updateFormSteps` was called once (line 147), on the class lists the page
came with. -/
def initForm (steps : List (List String)) (prev next submit : Option (List String)) :
    FormStepper :=
  updateFormSteps ⟨steps, prev, next, submit, 0⟩

/-- A click on one of the two navigation buttons of the form. -/
inductive Click where
  | next
  | prev
deriving DecidableEq, Repr

/-- The handler that a click runs. -/
def click (s : FormStepper) : Click → FormStepper
  | .next => nextBtnClick s
  | .prev => prevBtnClick s

/-- A sequence of clicks, handled one after the other. -/
def clicks (s : FormStepper) (cs : List Click) : FormStepper := cs.foldl click s

/-- The steps that are displayed: for each step, whether it holds `active`. -/
def FormStepper.shownSteps (s : FormStepper) : List Bool :=
  s.formSteps.map fun step => step.contains "active"

/-- Whether a button, if it exists, holds `hidden`. -/
def hiddenCtl (btn : Option (List String)) : Option Bool :=
  btn.map fun cl => cl.contains "hidden"

/-- The display the script aims at for a cursor: the cursor is an index of
the steps, step `k` holds `active` exactly when `k` is the cursor, the
previous button (if any) holds `hidden` exactly at cursor 0, the next button
exactly at the last index, and the submit button exactly off the last
index. -/
def Consistent (s : FormStepper) : Prop :=
  0 ≤ s.currentStep ∧ s.currentStep < (s.formSteps.length : Int) ∧
    s.shownSteps =
      (List.range' 0 s.formSteps.length).map
        (fun (k : Nat) => decide ((k : Int) = s.currentStep)) ∧
    hiddenCtl s.prevBtn = s.prevBtn.map (fun _ => decide (s.currentStep = 0)) ∧
    hiddenCtl s.nextBtn =
      s.nextBtn.map (fun _ => decide (s.currentStep = (s.formSteps.length : Int) - 1)) ∧
    hiddenCtl s.submitBtn =
      s.submitBtn.map (fun _ => decide (s.currentStep ≠ (s.formSteps.length : Int) - 1))

/-! ## JavaScript strings -/

/-- The code points `String.prototype.trim` strips: the white space of
ECMAScript (TAB, VT, FF, SP, NBSP, ZWNBSP and the space separators
U+1680, U+2000 to U+200A, U+202F, U+205F, U+3000) and its line terminators
(LF, CR, U+2028, U+2029). -/
def jsWhiteSpace (c : Char) : Bool :=
  c.toNat == 9 || c.toNat == 10 || c.toNat == 11 || c.toNat == 12 || c.toNat == 13 ||
    c.toNat == 32 || c.toNat == 160 || c.toNat == 5760 ||
    (8192 ≤ c.toNat && c.toNat ≤ 8202) || c.toNat == 8232 || c.toNat == 8233 ||
    c.toNat == 8239 || c.toNat == 8287 || c.toNat == 12288 || c.toNat == 65279

/-- Trimming on the characters: white space is dropped at both ends. -/
def trimChars (cs : List Char) : List Char :=
  ((cs.dropWhile jsWhiteSpace).reverse.dropWhile jsWhiteSpace).reverse

/-- The method `String.prototype.trim`. -/
def jsTrim (s : String) : String := String.mk (trimChars s.toList)

/-- The method `String.prototype.includes`: `t` occurs in `s` as a
contiguous piece. -/
def jsIncludes (s t : String) : Bool := decide (t.toList <:+: s.toList)

/-- The method `String.prototype.startsWith`. -/
def jsStartsWith (s t : String) : Bool := t.toList.isPrefixOf s.toList

/-- The property `length` of a string: the number of UTF-16 code units, two
for a character outside the basic plane. -/
def jsLength (s : String) : Nat :=
  (s.toList.map fun c => if c.toNat < 65536 then 1 else 2).sum

/-! ## The event form and its submit handler -/

/-- A control of the event form: whether it carries the attribute
`required`, its `value`, its `style.borderColor`, and the form step it sits
on. -/
structure Field where
  required : Bool
  value : String
  borderColor : String
  step : Nat
deriving DecidableEq, Repr

/-- The submit button as the submit handler sees it: its label and whether
it is disabled. -/
structure SubmitControl where
  textContent : String
  disabled : Bool
deriving DecidableEq, Repr

/-- The event form: its controls in document order and the element with the
id `submitBtn` (`none` when `getElementById` gives `null`). -/
structure EventForm where
  fields : List Field
  submitBtn : Option SubmitControl
deriving DecidableEq, Repr

/-- What a run of the submit handler leaves: the form, whether
`e.preventDefault()` was called, and the notices raised with `alert`. -/
structure SubmitOutcome where
  form : EventForm
  defaultPrevented : Bool
  alerts : List String
deriving DecidableEq, Repr

/-- Lines 265-272: `requiredFields.forEach(field => ...)`, over the controls
of the form that carry `required`, with the variable `isValid` threaded
through.  A field whose trimmed value is the empty string gets the border
colour `#dc3545` and clears `isValid`; any other required field gets
`#28a745`. -/
def validateRequired : List Field → Bool → List Field × Bool
  | [], isValid => ([], isValid)
  | field :: rest, isValid =>
    if field.required then
      if jsTrim field.value = "" then
        let r := validateRequired rest false
        ({ field with borderColor := "#dc3545" } :: r.1, r.2)
      else
        let r := validateRequired rest isValid
        ({ field with borderColor := "#28a745" } :: r.1, r.2)
    else
      let r := validateRequired rest isValid
      (field :: r.1, r.2)

/-- The submit handler of the event form (lines 260-286). -/
def eventFormSubmit (form : EventForm) : SubmitOutcome :=
  let r := validateRequired form.fields true
  if !r.2 then
    { form := { form with fields := r.1 }, defaultPrevented := true,
      alerts := ["Please fill in all required fields."] }
  else
    { form := { fields := r.1,
                submitBtn := form.submitBtn.map fun _ => ⟨"Submitting...", true⟩ },
      defaultPrevented := false, alerts := [] }

/-- The event page: the progressive form with its cursor, and the event
form with its controls. -/
structure EventPage where
  stepper : FormStepper
  form : EventForm
deriving DecidableEq, Repr

/-- An event on the event page that one of the handlers of the script
answers: a click on the next or previous button, or a submit of the form. -/
inductive PageEvent where
  | click (c : Click)
  | submit
deriving DecidableEq, Repr

/-- The handler an event runs.  The click handlers write class lists only;
the submit handler writes the fields and the label and `disabled` of the
submit button. -/
def handle (p : EventPage) : PageEvent → EventPage
  | .click c => { p with stepper := click p.stepper c }
  | .submit => { p with form := (eventFormSubmit p.form).form }

/-- A sequence of events, handled one after the other. -/
def handleAll (p : EventPage) (evs : List PageEvent) : EventPage := evs.foldl handle p

/-- Exactly one form step holds `active`, namely the step at the cursor: the
steps that hold `active` number one, and the step at index `k` holds
`active` exactly when `k` is `currentStep`. -/
def OneActiveStep (s : FormStepper) : Prop :=
  (s.formSteps.filter fun step => step.contains "active").length = 1 ∧
    ∀ (k : Nat) (step : List String), s.formSteps[k]? = some step →
      ("active" ∈ step ↔ (k : Int) = s.currentStep)

/-! ## The organizer search -/

/-- A row of the event table: the `textContent` of its `td` cells, in order,
and its `style.display`. -/
structure Row where
  cells : List String
  display : String
deriving DecidableEq, Repr

/-- A record `getEventsFromDOM` builds for a row; `row` is the position of
the row in the table body. -/
structure EventRecord where
  title : String
  category : String
  date : String
  status : String
  row : Nat
deriving DecidableEq, Repr

/-- Lines 210-221: `rows.forEach(row => ...)`, started at the row of
position `index`; a row with at least four cells yields a record with the
trimmed texts of its first four cells. -/
def getEventsFrom : Nat → List Row → List EventRecord
  | _, [] => []
  | index, row :: rest =>
    match row.cells with
    | c0 :: c1 :: c2 :: c3 :: _ =>
      { title := jsTrim c0, category := jsTrim c1, date := jsTrim c2, status := jsTrim c3,
        row := index } :: getEventsFrom (index + 1) rest
    | _ => getEventsFrom (index + 1) rest

/-- The function `getEventsFromDOM` (lines 205-223); the argument is the
rows of the element `active-event-list-body`, `none` when it is missing. -/
def getEventsFromDOM (eventListBody : Option (List Row)) : List EventRecord :=
  match eventListBody with
  | none => []
  | some rows => getEventsFrom 0 rows

/-- The assignment `event.row.style.display = d` on the row of position
`i`. -/
def setRowDisplay : Nat → String → List Row → List Row
  | _, _, [] => []
  | 0, d, row :: rest => { row with display := d } :: rest
  | i + 1, d, row :: rest => row :: setRowDisplay i d rest

/-- The `input` handler of the search box (lines 243-254).  `toLowerCase` is
the method `String.prototype.toLowerCase` of the engine and `value` the text
of the search box. -/
def searchInputHandler (toLowerCase : String → String) (value : String)
    (eventListBody : Option (List Row)) : Option (List Row) :=
  let searchTerm := toLowerCase value
  let events := getEventsFromDOM eventListBody
  eventListBody.map fun rows =>
    events.foldl
      (fun rows event =>
        if jsIncludes (toLowerCase event.title) searchTerm then
          setRowDisplay event.row "" rows
        else setRowDisplay event.row "none" rows)
      rows

/-- Lower-casing of the letters A to Z, every other character kept:
`toLowerCase` on a string of ASCII characters. -/
def asciiLowerCase (s : String) : String := String.mk (s.toList.map Char.toLower)

/-! ## The student search -/

/-- An event card of the student page: the `textContent` of its first
descendants of class `event-title`, `event-organizer` and `event-location`
(`none` when `querySelector` finds none), and its `style.display`. -/
structure Card where
  title : Option String
  organizer : Option String
  location : Option String
  display : String
deriving DecidableEq, Repr

/-- The expression `el?.textContent.toLowerCase() || ''` for the text of an
element that may be missing: the empty string also stands in for a
lower-cased text that is empty. -/
def fieldText (toLowerCase : String → String) (text : Option String) : String :=
  match text with
  | none => ""
  | some t => if toLowerCase t = "" then "" else toLowerCase t

/-- The `keyup` handler of the search bar (student.js, lines 533-550).
`toLowerCase` is the method `String.prototype.toLowerCase` of the engine and
`value` the text of the search bar; the cards are the elements of class
`event-card`. -/
def searchBarHandler (toLowerCase : String → String) (value : String)
    (eventCards : List Card) : List Card :=
  let searchTerm := toLowerCase value
  eventCards.map fun card =>
    let title := fieldText toLowerCase card.title
    let organizer := fieldText toLowerCase card.organizer
    let location := fieldText toLowerCase card.location
    if jsIncludes title searchTerm || jsIncludes organizer searchTerm ||
        jsIncludes location searchTerm then
      { card with display := "block" }
    else { card with display := "none" }

/-! ## The CSRF token (student.js) -/

/-- The scan behind `String.prototype.split` for a separator that is not
empty: `skip` characters of a separator just found are still to be passed
over, `piece` holds the current piece in reverse.  The separators are found
from left to right and do not overlap. -/
def splitGo (sep : List Char) : Nat → List Char → List Char → List (List Char)
  | _, piece, [] => [piece.reverse]
  | skip + 1, piece, _ :: cs => splitGo sep skip piece cs
  | 0, piece, c :: cs =>
    if sep.isPrefixOf (c :: cs) then piece.reverse :: splitGo sep (sep.length - 1) [] cs
    else splitGo sep 0 (c :: piece) cs

/-- The method `String.prototype.split` with a separator that is not
empty. -/
def jsSplit (s sep : String) : List String :=
  (splitGo sep.toList 0 [] s.toList).map String.mk

/-- The function `getCSRFToken` (student.js, lines 34-46).  `metaTag` is
what `document.querySelector('meta[name="csrf-token"]')` finds: `none` for no
element, otherwise the value of `getAttribute('content')`, which is `none`
when the attribute is missing.  `cookie` is `document.cookie`.  The result
`none` stands for `null` and `undefined`. -/
def getCSRFToken (metaTag : Option (Option String)) (cookie : String) : Option String :=
  match metaTag with
  | some content => content
  | none =>
    match (jsSplit cookie "; ").find? (fun row => jsStartsWith row "csrftoken=") with
    | some cookieValue =>
      if cookieValue = "" then none else (jsSplit cookieValue "=")[1]?
    | none => none

/-- The function `getCSRFHeaders` (student.js, lines 49-55): the headers as
the list of their entries.  The test `token ? ... : ...` fails for `null`
and for the empty string. -/
def getCSRFHeaders (metaTag : Option (Option String)) (cookie : String) :
    List (String × String) :=
  match getCSRFToken metaTag cookie with
  | some token =>
    if token = "" then []
    else [("X-CSRFToken", token), ("Content-Type", "application/x-www-form-urlencoded")]
  | none => []

/-- The cookie string of a list of cookies: the pairs `name=value` joined
by `; `, as `document.cookie` delivers them. -/
def cookieString (cookies : List (String × String)) : String :=
  "; ".intercalate (cookies.map fun nv => nv.1 ++ "=" ++ nv.2)

/-! ## File previews -/

/-- A file the user picked: its name and its declared media type. -/
structure File where
  name : String
  type : String
deriving DecidableEq, Repr

/-- What a file handler did before it returned: the file it handed to
`reader.readAsDataURL` (whose `onload` then sets the source of the preview),
the notices it raised with `alert`, and whether it cleared the input. -/
structure PreviewOutcome where
  reading : Option File
  alerts : List String
  inputCleared : Bool
deriving DecidableEq, Repr

/-- The function `handleFile` of the event flyer (organizer.js, lines
186-195), called on file selection and on drop with `files[0]`, which is
`undefined` (here `none`) when there is no file. -/
def handleFile (file : Option File) : PreviewOutcome :=
  match file with
  | some f =>
    if jsStartsWith f.type "image/" then ⟨some f, [], false⟩ else ⟨none, [], false⟩
  | none => ⟨none, [], false⟩

/-- The `change` handler of the profile upload of the organizer page
(organizer.js, lines 298-319). -/
def organizerProfileUploadChange (file : Option File) : PreviewOutcome :=
  match file with
  | some f =>
    if jsStartsWith f.type "image/" then ⟨some f, [], false⟩
    else ⟨none, ["Please select a valid image file."], true⟩
  | none => ⟨none, [], false⟩

/-- The `change` handler of the profile upload of the student page
(student.js, lines 466-476). -/
def studentProfileUploadChange (file : Option File) : PreviewOutcome :=
  match file with
  | some f => ⟨some f, [], false⟩
  | none => ⟨none, [], false⟩

/-! ## The organizer signup form (student.js) -/

/-- What the submit handler of the signup form did: whether it called
`e.preventDefault()` and the notices it raised with `alert`. -/
structure SignupOutcome where
  defaultPrevented : Bool
  alerts : List String
deriving DecidableEq, Repr

/-- The submit handler of the organizer signup form (student.js, lines
250-265), on the values of the password field and of the confirmation
field. -/
def organizerSignupSubmit (password confirmPassword : String) : SignupOutcome :=
  if password ≠ confirmPassword then
    ⟨true, ["Passwords do not match. Please check and try again."]⟩
  else if jsLength password < 8 then
    ⟨true, ["Password must be at least 8 characters long."]⟩
  else ⟨false, []⟩

/-! ## Sample documents -/

/-- A dashboard page: three sidebar links, the first one marked, and the
three view containers they target, the overview shown. -/
def samplePage : Doc :=
  [⟨"", ["active"], some "dashboard-overview", true, false⟩,
   ⟨"", [], some "create-event-view", true, false⟩,
   ⟨"", [], some "profile-page", true, false⟩,
   ⟨"dashboard-overview", ["dashboard-view"], none, false, true⟩,
   ⟨"create-event-view", ["dashboard-view", "hidden"], none, false, true⟩,
   ⟨"profile-page", ["dashboard-view", "hidden"], none, false, true⟩]

/-- The view id `a"b`, which holds a double quote. -/
def quotedId : String := String.mk [Char.ofNat 97, Char.ofNat 34, Char.ofNat 98]

/-- The view id `a\zb`, which holds a backslash. -/
def escapedId : String :=
  String.mk [Char.ofNat 97, Char.ofNat 92, Char.ofNat 122, Char.ofNat 98]

/-- An engine that rejects every text whose id is not selector-safe. -/
def rejectingEngine : SelectorEngine := fun _ _ => .raises

/-- An engine that accepts every text whose id is not selector-safe and
finds no element for it. -/
def findingNothingEngine : SelectorEngine := fun _ _ => .missing

/-- A page whose only view container has the id `a"b` and is hidden. -/
def quotedPage : Doc :=
  [⟨quotedId, ["dashboard-view", "hidden"], none, false, true⟩]

/-- A page with a marked element outside the sidebar that carries a
`data-view` target, and no sidebar link at all. -/
def strayLinkPage : Doc :=
  [⟨"", ["quick-action", "active"], some "create-event-view", false, false⟩,
   ⟨"dashboard-overview", ["dashboard-view"], none, false, true⟩]

/-- A page with two view containers, the first one shown. -/
def twoViewPage : Doc :=
  [⟨"dashboard-overview", ["dashboard-view"], none, false, true⟩,
   ⟨"profile-page", ["dashboard-view", "hidden"], none, false, true⟩]

/-- The page with two view containers after both were hidden. -/
def allHiddenPage : Doc :=
  [⟨"dashboard-overview", ["dashboard-view", "hidden"], none, false, true⟩,
   ⟨"profile-page", ["dashboard-view", "hidden"], none, false, true⟩]

/-- The class lists of the three steps of a sample form, as the page
delivers them. -/
def sampleSteps : List (List String) :=
  [["form-step", "active"], ["form-step"], ["form-step"]]

/-- The class list a sample button comes with. -/
def sampleBtn : List String := ["btn"]

/-- Four clicks: next, next, next, previous. -/
def sampleClicks : List Click := [.next, .next, .next, .prev]

/-- The sample form right after the script ran: three steps and all three
buttons. -/
def sampleForm : FormStepper :=
  initForm sampleSteps (some sampleBtn) (some sampleBtn) (some sampleBtn)

/-- A store that holds the intent to open the profile, next to a key of
another script. -/
def profileIntentStore : Storage := [("theme", "dark"), ("showProfile", "true")]

/-- A store without intent: `showProfile` holds a value other than `true`. -/
def noIntentStore : Storage := [("theme", "dark"), ("showProfile", "false")]

/-- A store in which both intent keys hold `true`. -/
def bothIntentsStore : Storage := [("showCreateEvent", "true"), ("showProfile", "true")]

/-- The controls of a sample event form: the required field on step 2 that
holds blanks only is the one that fails. -/
def blankFields : List Field :=
  [⟨true, "Tech Talk", "", 0⟩, ⟨false, "", "", 0⟩, ⟨true, "   ", "", 2⟩,
   ⟨true, "Hall A", "", 2⟩]

/-- The controls of a sample event form with every required field filled. -/
def filledFields : List Field :=
  [⟨true, "Tech Talk", "", 0⟩, ⟨false, "", "", 1⟩, ⟨true, "Hall A", "", 2⟩]

/-- A submit button as the page delivers it. -/
def sampleSubmitBtn : SubmitControl := ⟨"Create Event", false⟩

/-- Two rows of the event table, the first one hidden by an earlier
search. -/
def sampleRows : List Row :=
  [⟨["AI Workshop", "Tech", "2025-01-10", "Approved"], "none"⟩,
   ⟨["Hackathon", "Tech", "2025-02-01", "Pending"], ""⟩]

/-- A document of the type `application/pdf`. -/
def pdfFile : File := ⟨"notes.pdf", "application/pdf"⟩

/-- A picture of the type `image/png`. -/
def pngFile : File := ⟨"me.png", "image/png"⟩

/-! ## Lemmas on class lists -/

theorem mem_classAdd (x c : String) (cl : List String) :
    x ∈ classAdd c cl ↔ x = c ∨ x ∈ cl := by
  unfold classAdd
  split
  · constructor
    · intro h; exact Or.inr h
    · rintro (rfl | h)
      · assumption
      · exact h
  · simp [or_comm]

theorem mem_classRemove (x c : String) (cl : List String) :
    x ∈ classRemove c cl ↔ x ∈ cl ∧ x ≠ c := by
  simp [classRemove]

theorem visible_iff (e : Element) : e.visible = true ↔ "hidden" ∉ e.classes := by
  simp [Element.visible]

theorem active_iff (e : Element) : e.active = true ↔ "active" ∈ e.classes := by
  simp [Element.active]

/-! ## Lemmas on the three passes of showView -/

theorem deselectLink_id (e : Element) : (deselectLink e).id = e.id := by
  unfold deselectLink; split <;> rfl

theorem deselectLink_dashboardView (e : Element) :
    (deselectLink e).dashboardView = e.dashboardView := by
  unfold deselectLink; split <;> rfl

theorem deselectLink_dataView (e : Element) : (deselectLink e).dataView = e.dataView := by
  unfold deselectLink; split <;> rfl

theorem toggleView_id (v : String) (e : Element) : (toggleView v e).id = e.id := by
  unfold toggleView; split
  · split <;> rfl
  · rfl

theorem toggleView_dashboardView (v : String) (e : Element) :
    (toggleView v e).dashboardView = e.dashboardView := by
  unfold toggleView; split
  · split <;> rfl
  · rfl

theorem toggleView_dataView (v : String) (e : Element) :
    (toggleView v e).dataView = e.dataView := by
  unfold toggleView; split
  · split <;> rfl
  · rfl

theorem toggleView_visible (v : String) (e : Element) (hv : e.dashboardView = true) :
    (toggleView v e).visible = decide (e.id = v) := by
  unfold toggleView
  by_cases hid : e.id = v
  · simp [hv, hid, Element.visible, mem_classRemove]
  · simp [hv, hid, Element.visible, mem_classAdd]

theorem toggleView_active (v : String) (e : Element) :
    (toggleView v e).active = e.active := by
  unfold toggleView
  by_cases hv : e.dashboardView = true
  · by_cases hid : e.id = v
    · simp [hv, hid, Element.active, mem_classRemove]
    · simp [hv, hid, Element.active, mem_classAdd]
  · simp [hv]

theorem viewIds_cons (e : Element) (es : Doc) :
    viewIds (e :: es) = if e.dashboardView then e.id :: viewIds es else viewIds es := by
  unfold viewIds
  by_cases hv : e.dashboardView = true <;> simp [List.filter_cons, hv]

theorem viewIds_deselectLinks (doc : Doc) : viewIds (deselectLinks doc) = viewIds doc := by
  induction doc with
  | nil => rfl
  | cons e es ih =>
    unfold deselectLinks at ih ⊢
    rw [List.map_cons, viewIds_cons, viewIds_cons, ih, deselectLink_id,
      deselectLink_dashboardView]

theorem viewIds_markMatchingLink (viewId : String) (doc : Doc) :
    viewIds (markMatchingLink viewId doc) = viewIds doc := by
  induction doc with
  | nil => rfl
  | cons e es ih =>
    unfold markMatchingLink
    split
    · rw [viewIds_cons, viewIds_cons]
    · rw [viewIds_cons, viewIds_cons, ih]

theorem visibleViews_cons (e : Element) (es : Doc) :
    visibleViews (e :: es) =
      if (e.dashboardView && e.visible) = true then e :: visibleViews es
      else visibleViews es := by
  unfold visibleViews
  rw [List.filter_cons]

theorem visibleViews_toggleViews (viewId : String) (doc : Doc) :
    (visibleViews (toggleViews viewId doc)).length = (viewIds doc).count viewId := by
  induction doc with
  | nil => rfl
  | cons e es ih =>
    unfold toggleViews at ih ⊢
    rw [List.map_cons, visibleViews_cons, viewIds_cons, toggleView_dashboardView]
    by_cases hv : e.dashboardView = true
    · rw [toggleView_visible viewId e hv]
      by_cases hid : e.id = viewId
      · simp [hv, hid, ih]
      · simp [hv, hid, ih, List.count_cons]
    · simp [hv, ih]

theorem toggleViews_visible (viewId : String) (doc : Doc) :
    ∀ e ∈ toggleViews viewId doc, e.dashboardView = true →
      (e.visible = true ↔ e.id = viewId) := by
  intro e he hv
  simp only [toggleViews, List.mem_map] at he
  obtain ⟨e0, _, rfl⟩ := he
  rw [toggleView_dashboardView] at hv
  rw [toggleView_visible viewId e0 hv, toggleView_id]
  simp

theorem toggleViews_ids (viewId : String) (doc : Doc) :
    (toggleViews viewId doc).map (fun e => e.id) = doc.map (fun e => e.id) := by
  simp [toggleViews, List.map_map, Function.comp_def, toggleView_id]

theorem deselectLinks_ids (doc : Doc) :
    (deselectLinks doc).map (fun e => e.id) = doc.map (fun e => e.id) := by
  simp [deselectLinks, List.map_map, Function.comp_def, deselectLink_id]

theorem markMatchingLink_ids (viewId : String) (doc : Doc) :
    (markMatchingLink viewId doc).map (fun e => e.id) = doc.map (fun e => e.id) := by
  induction doc with
  | nil => rfl
  | cons e es ih =>
    unfold markMatchingLink
    split
    · simp
    · simp [ih]

theorem deselectLink_active (e : Element) (hs : e.sidebarLink = true) :
    (deselectLink e).active = false := by
  simp [deselectLink, hs, Element.active, mem_classRemove]

theorem activeNavLinks_cons (e : Element) (es : Doc) :
    activeNavLinks (e :: es) =
      if (e.navLink && e.active) = true then e :: activeNavLinks es
      else activeNavLinks es := by
  unfold activeNavLinks
  rw [List.filter_cons]

theorem activeNavLinks_eq_nil (doc : Doc)
    (h : ∀ e ∈ doc, e.navLink = true → e.active = false) : activeNavLinks doc = [] := by
  unfold activeNavLinks
  rw [List.filter_eq_nil_iff]
  intro e he
  cases hn : e.navLink
  · simp
  · simp [h e he hn]

theorem deselectLinks_no_active (doc : Doc)
    (hlinks : ∀ e ∈ doc, e.navLink = true → e.sidebarLink = true) :
    ∀ e ∈ deselectLinks doc, e.navLink = true → e.active = false := by
  intro e he hn
  simp only [deselectLinks, List.mem_map] at he
  obtain ⟨e0, he0, rfl⟩ := he
  have hn0 : e0.navLink = true := by
    simpa [Element.navLink, deselectLink_dataView] using hn
  exact deselectLink_active e0 (hlinks e0 he0 hn0)

theorem deselectLinks_any (viewId : String) (doc : Doc) :
    (deselectLinks doc).any (fun e => e.dataView == some viewId) =
      doc.any (fun e => e.dataView == some viewId) := by
  simp [deselectLinks, List.any_map, Function.comp_def, deselectLink_dataView]

theorem markMatchingLink_count (viewId : String) (doc : Doc)
    (h : ∀ e ∈ doc, e.navLink = true → e.active = false) :
    (activeNavLinks (markMatchingLink viewId doc)).length =
      if doc.any (fun e => e.dataView == some viewId) then 1 else 0 := by
  induction doc with
  | nil => rfl
  | cons e es ih =>
    have hes : ∀ x ∈ es, x.navLink = true → x.active = false :=
      fun x hx => h x (List.mem_cons_of_mem e hx)
    unfold markMatchingLink
    by_cases hm : e.dataView = some viewId
    · rw [if_pos hm, activeNavLinks_cons, activeNavLinks_eq_nil es hes]
      simp [hm, Element.navLink, Element.active, mem_classAdd]
    · have he : (e.navLink && e.active) = false := by
        cases hn : e.navLink
        · rfl
        · simp [h e (List.mem_cons_self e es) hn]
      rw [if_neg hm, activeNavLinks_cons, he]
      simp [ih hes, hm]

theorem markMatchingLink_target (viewId : String) (doc : Doc)
    (h : ∀ e ∈ doc, e.navLink = true → e.active = false) :
    ∀ e ∈ markMatchingLink viewId doc, e.navLink = true → e.active = true →
      e.dataView = some viewId := by
  induction doc with
  | nil => intro e he; simp [markMatchingLink] at he
  | cons e0 es ih =>
    have hes : ∀ x ∈ es, x.navLink = true → x.active = false :=
      fun x hx => h x (List.mem_cons_of_mem e0 hx)
    intro e he hn ha
    unfold markMatchingLink at he
    by_cases hm : e0.dataView = some viewId
    · rw [if_pos hm, List.mem_cons] at he
      rcases he with rfl | he
      · exact hm
      · have := hes e he hn
        rw [this] at ha
        exact absurd ha (by decide)
    · rw [if_neg hm, List.mem_cons] at he
      rcases he with rfl | he
      · have := h e (List.mem_cons_self e es) hn
        rw [this] at ha
        exact absurd ha (by decide)
      · exact ih hes e he hn ha

theorem activeNavLinks_toggleViews (viewId : String) (doc : Doc) :
    (activeNavLinks (toggleViews viewId doc)).length = (activeNavLinks doc).length := by
  induction doc with
  | nil => rfl
  | cons e es ih =>
    unfold toggleViews at ih ⊢
    rw [List.map_cons, activeNavLinks_cons, activeNavLinks_cons, toggleView_active]
    have hn : (toggleView viewId e).navLink = e.navLink := by
      simp [Element.navLink, toggleView_dataView]
    rw [hn]
    by_cases hc : (e.navLink && e.active) = true
    · simp [hc, ih]
    · simp [hc, ih]

theorem toggleViews_dataViews (viewId : String) (doc : Doc) :
    (toggleViews viewId doc).map (fun e => e.dataView) = doc.map (fun e => e.dataView) := by
  simp [toggleViews, List.map_map, Function.comp_def, toggleView_dataView]

theorem deselectLinks_dataViews (doc : Doc) :
    (deselectLinks doc).map (fun e => e.dataView) = doc.map (fun e => e.dataView) := by
  simp [deselectLinks, List.map_map, Function.comp_def, deselectLink_dataView]

theorem markMatchingLink_dataViews (viewId : String) (doc : Doc) :
    (markMatchingLink viewId doc).map (fun e => e.dataView) =
      doc.map (fun e => e.dataView) := by
  induction doc with
  | nil => rfl
  | cons e es ih =>
    unfold markMatchingLink
    split
    · simp
    · simp [ih]

theorem viewIds_toggleViews (viewId : String) (doc : Doc) :
    viewIds (toggleViews viewId doc) = viewIds doc := by
  induction doc with
  | nil => rfl
  | cons e es ih =>
    unfold toggleViews at ih ⊢
    rw [List.map_cons, viewIds_cons, viewIds_cons, ih, toggleView_id,
      toggleView_dashboardView]

theorem viewIds_markElement (i : Nat) (doc : Doc) :
    viewIds (markElement i doc) = viewIds doc := by
  induction doc generalizing i with
  | nil => cases i <;> rfl
  | cons e es ih =>
    cases i with
    | zero =>
      show viewIds ({ e with classes := classAdd "active" e.classes } :: es) = _
      rw [viewIds_cons, viewIds_cons]
    | succ i =>
      show viewIds (e :: markElement i es) = _
      rw [viewIds_cons, viewIds_cons, ih]

theorem showView_ok (engine : SelectorEngine) (viewId : String) (doc doc' : Doc)
    (h : showView engine viewId doc = .ok doc') :
    ∃ d, doc' = toggleViews viewId d ∧ viewIds d = viewIds doc := by
  unfold showView at h
  by_cases hs : selectorSafe viewId = true
  · simp only [hs, if_true] at h
    injection h with h
    exact ⟨_, h.symm, by rw [viewIds_markMatchingLink, viewIds_deselectLinks]⟩
  · simp only [hs] at h
    cases he : engine viewId (deselectLinks doc) with
    | raises => simp [he] at h
    | missing =>
      simp only [he] at h
      injection h with h
      exact ⟨_, h.symm, viewIds_deselectLinks doc⟩
    | element i =>
      simp only [he] at h
      injection h with h
      exact ⟨_, h.symm, by rw [viewIds_markElement, viewIds_deselectLinks]⟩

theorem showView_views (engine : SelectorEngine) (x : String) (doc doc' : Doc)
    (h : showView engine x doc = .ok doc') :
    viewIds doc' = viewIds doc ∧
      (∀ e ∈ doc', e.dashboardView = true → (e.visible = true ↔ e.id = x)) ∧
      (visibleViews doc').length = (viewIds doc).count x := by
  obtain ⟨d, hd, hids⟩ := showView_ok engine x doc doc' h
  subst hd
  refine ⟨?_, toggleViews_visible x _, ?_⟩
  · rw [viewIds_toggleViews, hids]
  · rw [visibleViews_toggleViews, hids]

theorem showView_safe (engine : SelectorEngine) (x : String) (doc : Doc)
    (hsafe : selectorSafe x = true) :
    showView engine x doc = .ok (toggleViews x (markMatchingLink x (deselectLinks doc))) := by
  simp [showView, hsafe]

theorem showView_raises (engine : SelectorEngine) (x : String) (doc : Doc)
    (hsafe : selectorSafe x = false) (hr : engine x (deselectLinks doc) = .raises) :
    showView engine x doc = .error (deselectLinks doc) := by
  simp [showView, hsafe, hr]

/-! ## The view switch: main results -/

/-- On the ids that are selector-safe the view switch shows the target
alone: for view containers with pairwise distinct ids and a selector-safe
view id that is the id of one of them, `showView` returns whatever the
engine is;
afterwards the ids and the set of view containers are as before, a view
container is visible exactly when its id is the view id, and exactly one
view container is visible, whatever the classes were before the call. -/
theorem showView_shows_only_target (engine : SelectorEngine) (doc : Doc) (viewId : String)
    (hsafe : selectorSafe viewId = true) (hnodup : (viewIds doc).Nodup)
    (hmem : viewId ∈ viewIds doc) :
    ∃ doc', showView engine viewId doc = .ok doc' ∧
      doc'.map (fun e => e.id) = doc.map (fun e => e.id) ∧
      viewIds doc' = viewIds doc ∧
      (∀ e ∈ doc', e.dashboardView = true → (e.visible = true ↔ e.id = viewId)) ∧
      (visibleViews doc').length = 1 := by
  refine ⟨toggleViews viewId (markMatchingLink viewId (deselectLinks doc)), ?_, ?_, ?_, ?_, ?_⟩
  · simp [showView, hsafe]
  · rw [toggleViews_ids, markMatchingLink_ids, deselectLinks_ids]
  · rw [viewIds_toggleViews, viewIds_markMatchingLink, viewIds_deselectLinks]
  · exact toggleViews_visible viewId _
  · rw [visibleViews_toggleViews, viewIds_markMatchingLink, viewIds_deselectLinks]
    exact List.count_eq_one_of_mem hnodup hmem

/-- The sample page and the view id `profile-page`, for the theorem
before. -/
theorem showView_shows_only_target_witness :
    selectorSafe "profile-page" = true ∧ (viewIds samplePage).Nodup ∧
      "profile-page" ∈ viewIds samplePage ∧
      ∃ doc', showView rejectingEngine "profile-page" samplePage = .ok doc' ∧
        doc'.map (fun e => e.id) = samplePage.map (fun e => e.id) ∧
        viewIds doc' = viewIds samplePage ∧
        (∀ e ∈ doc', e.dashboardView = true →
          (e.visible = true ↔ e.id = "profile-page")) ∧
        (visibleViews doc').length = 1 :=
  ⟨by decide, by decide, by decide,
    showView_shows_only_target rejectingEngine samplePage "profile-page" (by decide)
      (by decide) (by decide)⟩

/-- C1, the failing input: the page whose one view container has the id
`a"b` and is hidden.  The ids are pairwise distinct and `a"b` is one of
them, but the id is not selector-safe: line 70 hands the text
`[data-view="a"b"]` to `document.querySelector`.  For every engine that
rejects this text, as the engine of a browser does, `showView` raises before
it reaches the loop of lines 76-82: the document is left as it was, the
container still hidden and no view container visible. -/
theorem showView_quoted_id_raises :
    (viewIds quotedPage).Nodup ∧ quotedId ∈ viewIds quotedPage ∧
      selectorSafe quotedId = false ∧ visibleViews quotedPage = [] ∧
      ∀ engine : SelectorEngine, engine quotedId (deselectLinks quotedPage) = .raises →
        showView engine quotedId quotedPage = .error quotedPage := by
  refine ⟨by decide, by decide, by decide, by decide, ?_⟩
  intro engine hr
  exact showView_raises engine quotedId quotedPage (by decide) hr

/-- C1, witness: an engine that rejects the text. -/
theorem showView_quoted_id_raises_witness :
    rejectingEngine quotedId (deselectLinks quotedPage) = .raises ∧
      showView rejectingEngine quotedId quotedPage = .error quotedPage :=
  ⟨rfl, showView_quoted_id_raises.2.2.2.2 rejectingEngine rfl⟩

/-- C2 (as amended): when every element that carries a `data-view` target
is one of the sidebar links, and the view id holds no double quote,
backslash, line break or NUL, `showView` returns and leaves the targets
untouched; afterwards every navigation link marked `active` targets the view
id, and the number of marked navigation links is one when some navigation
link targets the view id and zero when none does. -/
theorem showView_marks_one_link (engine : SelectorEngine) (doc : Doc) (viewId : String)
    (hsafe : selectorSafe viewId = true)
    (hlinks : ∀ e ∈ doc, e.navLink = true → e.sidebarLink = true) :
    ∃ doc', showView engine viewId doc = .ok doc' ∧
      doc'.map (fun e => e.dataView) = doc.map (fun e => e.dataView) ∧
      (∀ e ∈ doc', e.navLink = true → e.active = true → e.dataView = some viewId) ∧
      (activeNavLinks doc').length =
        if doc.any (fun e => e.dataView == some viewId) then 1 else 0 := by
  have hclean := deselectLinks_no_active doc hlinks
  refine ⟨toggleViews viewId (markMatchingLink viewId (deselectLinks doc)), ?_, ?_, ?_, ?_⟩
  · simp [showView, hsafe]
  · rw [toggleViews_dataViews, markMatchingLink_dataViews, deselectLinks_dataViews]
  · intro e he hn ha
    simp only [toggleViews, List.mem_map] at he
    obtain ⟨e0, he0, rfl⟩ := he
    rw [toggleView_dataView]
    rw [toggleView_active] at ha
    have hn0 : e0.navLink = true := by
      simpa [Element.navLink, toggleView_dataView] using hn
    exact markMatchingLink_target viewId _ hclean e0 he0 hn0 ha
  · rw [activeNavLinks_toggleViews, markMatchingLink_count viewId _ hclean,
      deselectLinks_any]

/-- C2, witness: the sample page, whose `data-view` carriers are all sidebar
links, and the view id `profile-page`. -/
theorem showView_marks_one_link_witness :
    selectorSafe "profile-page" = true ∧
      (∀ e ∈ samplePage, e.navLink = true → e.sidebarLink = true) ∧
      ∃ doc', showView rejectingEngine "profile-page" samplePage = .ok doc' ∧
        doc'.map (fun e => e.dataView) = samplePage.map (fun e => e.dataView) ∧
        (∀ e ∈ doc', e.navLink = true → e.active = true →
          e.dataView = some "profile-page") ∧
        (activeNavLinks doc').length =
          if samplePage.any (fun e => e.dataView == some "profile-page") then 1 else 0 :=
  ⟨by decide, by decide,
    showView_marks_one_link rejectingEngine samplePage "profile-page" (by decide)
      (by decide)⟩

/-- C2, counterexample: a marked element with a `data-view` target that is
not one of the sidebar links.  No navigation link targets `profile-page`,
yet after `showView('profile-page')`, whatever the engine, that navigation
link is still marked `active`: one navigation link is marked, not zero, and
it was not deselected. -/
theorem showView_keeps_stray_link_active :
    strayLinkPage.any (fun e => e.dataView == some "profile-page") = false ∧
      (∀ engine : SelectorEngine, showView engine "profile-page" strayLinkPage =
        .ok [⟨"", ["quick-action", "active"], some "create-event-view", false, false⟩,
             ⟨"dashboard-overview", ["dashboard-view", "hidden"], none, false, true⟩]) ∧
      (activeNavLinks
        [⟨"", ["quick-action", "active"], some "create-event-view", false, false⟩,
         ⟨"dashboard-overview", ["dashboard-view", "hidden"], none, false, true⟩]).length
        = 1 := by
  refine ⟨by decide, fun _ => rfl, by decide⟩

/-- C3 (as amended): after every completed call `showView(x)`, for any
argument, any prior state and any selector engine, the view containers are
the same as before and a view container is visible exactly when its id is
`x`; so the number of visible view containers is the number of view
containers with the id `x`, which for pairwise distinct ids is one when `x`
is the id of a view container and zero when it is not. -/
theorem showView_visible_iff_id (engine : SelectorEngine) (doc doc' : Doc) (x : String)
    (h : showView engine x doc = .ok doc') :
    viewIds doc' = viewIds doc ∧
      (∀ e ∈ doc', e.dashboardView = true → (e.visible = true ↔ e.id = x)) ∧
      (visibleViews doc').length = (viewIds doc).count x ∧
      ((viewIds doc).Nodup →
        (visibleViews doc').length = if x ∈ viewIds doc then 1 else 0) := by
  obtain ⟨hids, hvis, hcount⟩ := showView_views engine x doc doc' h
  refine ⟨hids, hvis, hcount, ?_⟩
  intro hnodup
  rw [hcount]
  by_cases hx : x ∈ viewIds doc
  · rw [if_pos hx]
    exact List.count_eq_one_of_mem hnodup hx
  · rw [if_neg hx]
    exact List.count_eq_zero_of_not_mem hx

/-- C3, witness: the call `showView` with the id `a\zb`, which is not
selector-safe, on the page with two view containers, under an engine that
accepts the text and finds no element; the call completes, with both view
containers hidden. -/
theorem showView_visible_iff_id_witness :
    showView findingNothingEngine escapedId twoViewPage = .ok allHiddenPage ∧
      viewIds allHiddenPage = viewIds twoViewPage ∧
      (∀ e ∈ allHiddenPage, e.dashboardView = true →
        (e.visible = true ↔ e.id = escapedId)) ∧
      (visibleViews allHiddenPage).length = (viewIds twoViewPage).count escapedId ∧
      ((viewIds twoViewPage).Nodup →
        (visibleViews allHiddenPage).length =
          if escapedId ∈ viewIds twoViewPage then 1 else 0) :=
  ⟨rfl, showView_visible_iff_id findingNothingEngine twoViewPage allHiddenPage escapedId rfl⟩

/-- C3, counterexample: `settings` is not the id of a view container of the
page with two view containers; the call `showView('settings')` completes,
whatever the engine, and leaves both view containers hidden, so no view
container is visible. -/
theorem showView_unknown_id_hides_all :
    ∃ doc', (∀ engine : SelectorEngine, showView engine "settings" twoViewPage = .ok doc') ∧
      visibleViews doc' = [] :=
  ⟨_, fun _ => rfl, by decide⟩


/-! ## The progressive form: lemmas -/

theorem contains_classToggle (c : String) (b : Bool) (cl : List String) :
    (classToggle c b cl).contains c = b := by
  cases b
  · simp [classToggle, mem_classRemove]
  · simp [classToggle, mem_classAdd]

theorem toggleSteps_length (c : Int) (i : Nat) (l : List (List String)) :
    (toggleSteps c i l).length = l.length := by
  induction l generalizing i with
  | nil => rfl
  | cons step rest ih => simp [toggleSteps, ih]

theorem toggleSteps_shown (c : Int) (i : Nat) (l : List (List String)) :
    (toggleSteps c i l).map (fun step => step.contains "active") =
      (List.range' i l.length).map (fun (k : Nat) => decide ((k : Int) = c)) := by
  induction l generalizing i with
  | nil => rfl
  | cons step rest ih =>
    rw [toggleSteps, List.map_cons, contains_classToggle, ih, List.length_cons,
      List.range'_succ, List.map_cons]

theorem hiddenCtl_toggle (b : Bool) (btn : Option (List String)) :
    hiddenCtl (btn.map (classToggle "hidden" b)) =
      (btn.map (classToggle "hidden" b)).map (fun _ => b) := by
  cases btn with
  | none => rfl
  | some cl =>
    show some ((classToggle "hidden" b cl).contains "hidden") = some b
    rw [contains_classToggle]

theorem updateFormSteps_currentStep (s : FormStepper) :
    (updateFormSteps s).currentStep = s.currentStep := by
  unfold updateFormSteps; split <;> rfl

theorem updateFormSteps_length (s : FormStepper) :
    (updateFormSteps s).formSteps.length = s.formSteps.length := by
  unfold updateFormSteps; split
  · rfl
  · simp [toggleSteps_length]

theorem updateFormSteps_buttons (s : FormStepper) :
    (updateFormSteps s).prevBtn.isSome = s.prevBtn.isSome ∧
      (updateFormSteps s).nextBtn.isSome = s.nextBtn.isSome ∧
      (updateFormSteps s).submitBtn.isSome = s.submitBtn.isSome := by
  unfold updateFormSteps; split
  · exact ⟨rfl, rfl, rfl⟩
  · simp

theorem updateFormSteps_consistent (s : FormStepper) (h0 : 0 ≤ s.currentStep)
    (hlt : s.currentStep < (s.formSteps.length : Int)) : Consistent (updateFormSteps s) := by
  have hne : ¬ s.formSteps.length = 0 := by
    intro h; rw [h] at hlt; simp at hlt; omega
  refine ⟨?_, ?_, ?_, ?_, ?_, ?_⟩
  · rw [updateFormSteps_currentStep]; exact h0
  · rw [updateFormSteps_currentStep, updateFormSteps_length]; exact hlt
  · rw [updateFormSteps_currentStep, updateFormSteps_length]
    simp only [updateFormSteps, if_neg hne, FormStepper.shownSteps]
    exact toggleSteps_shown _ _ _
  · simp only [updateFormSteps, if_neg hne]
    exact hiddenCtl_toggle _ _
  · simp only [updateFormSteps, if_neg hne, toggleSteps_length]
    exact hiddenCtl_toggle _ _
  · simp only [updateFormSteps, if_neg hne, toggleSteps_length]
    exact hiddenCtl_toggle _ _

theorem click_length (s : FormStepper) (c : Click) :
    (click s c).formSteps.length = s.formSteps.length := by
  cases c
  · simp only [click, nextBtnClick]
    split
    · rw [updateFormSteps_length]
    · rfl
  · simp only [click, prevBtnClick]
    split
    · rw [updateFormSteps_length]
    · rfl

theorem click_buttons (s : FormStepper) (c : Click) :
    (click s c).prevBtn.isSome = s.prevBtn.isSome ∧
      (click s c).nextBtn.isSome = s.nextBtn.isSome ∧
      (click s c).submitBtn.isSome = s.submitBtn.isSome := by
  cases c
  · simp only [click, nextBtnClick]
    split
    · exact updateFormSteps_buttons _
    · exact ⟨rfl, rfl, rfl⟩
  · simp only [click, prevBtnClick]
    split
    · exact updateFormSteps_buttons _
    · exact ⟨rfl, rfl, rfl⟩

theorem click_consistent (s : FormStepper) (c : Click) (h : Consistent s) :
    Consistent (click s c) := by
  have h0 := h.1
  have hlt := h.2.1
  cases c
  · simp only [click, nextBtnClick]
    split
    · apply updateFormSteps_consistent
      · show 0 ≤ s.currentStep + 1
        omega
      · show s.currentStep + 1 < (s.formSteps.length : Int)
        omega
    · exact h
  · simp only [click, prevBtnClick]
    split
    · apply updateFormSteps_consistent
      · show 0 ≤ s.currentStep - 1
        omega
      · show s.currentStep - 1 < (s.formSteps.length : Int)
        omega
    · exact h

theorem clicks_length (s : FormStepper) (cs : List Click) :
    (clicks s cs).formSteps.length = s.formSteps.length := by
  induction cs generalizing s with
  | nil => rfl
  | cons c cs ih =>
    show (clicks (click s c) cs).formSteps.length = _
    rw [ih, click_length]

theorem clicks_buttons (s : FormStepper) (cs : List Click) :
    (clicks s cs).prevBtn.isSome = s.prevBtn.isSome ∧
      (clicks s cs).nextBtn.isSome = s.nextBtn.isSome ∧
      (clicks s cs).submitBtn.isSome = s.submitBtn.isSome := by
  induction cs generalizing s with
  | nil => exact ⟨rfl, rfl, rfl⟩
  | cons c cs ih =>
    show (clicks (click s c) cs).prevBtn.isSome = _ ∧
      (clicks (click s c) cs).nextBtn.isSome = _ ∧ (clicks (click s c) cs).submitBtn.isSome = _
    obtain ⟨h1, h2, h3⟩ := ih (click s c)
    obtain ⟨g1, g2, g3⟩ := click_buttons s c
    exact ⟨h1.trans g1, h2.trans g2, h3.trans g3⟩

theorem clicks_consistent (s : FormStepper) (cs : List Click) (h : Consistent s) :
    Consistent (clicks s cs) := by
  induction cs generalizing s with
  | nil => exact h
  | cons c cs ih => exact ih (click s c) (click_consistent s c h)

theorem initForm_length (steps : List (List String)) (prev next submit : Option (List String)) :
    (initForm steps prev next submit).formSteps.length = steps.length := by
  unfold initForm; rw [updateFormSteps_length]

theorem initForm_consistent (steps : List (List String))
    (prev next submit : Option (List String)) (hN : 1 ≤ steps.length) :
    Consistent (initForm steps prev next submit) := by
  unfold initForm
  apply updateFormSteps_consistent
  · show (0 : Int) ≤ 0
    omega
  · show (0 : Int) < (steps.length : Int)
    omega

theorem clicks_nonneg (s : FormStepper) (cs : List Click) (h : 0 ≤ s.currentStep) :
    0 ≤ (clicks s cs).currentStep := by
  induction cs generalizing s with
  | nil => exact h
  | cons c cs ih =>
    apply ih (click s c)
    cases c
    · simp only [click, nextBtnClick]
      split
      · rw [updateFormSteps_currentStep]
        show 0 ≤ s.currentStep + 1
        omega
      · exact h
    · simp only [click, prevBtnClick]
      split
      · rw [updateFormSteps_currentStep]
        show 0 ≤ s.currentStep - 1
        omega
      · exact h

theorem map_const_of_isSome {α β : Type} (b : β) (o1 o2 : Option α)
    (h : o1.isSome = o2.isSome) : o1.map (fun _ => b) = o2.map (fun _ => b) := by
  cases o1 <;> cases o2 <;> simp at h ⊢

theorem consistent_same_display (s t : FormStepper) (hs : Consistent s) (ht : Consistent t)
    (hcur : t.currentStep = s.currentStep) (hlen : t.formSteps.length = s.formSteps.length)
    (hp : t.prevBtn.isSome = s.prevBtn.isSome) (hn : t.nextBtn.isSome = s.nextBtn.isSome)
    (hsb : t.submitBtn.isSome = s.submitBtn.isSome) :
    t.shownSteps = s.shownSteps ∧ hiddenCtl t.prevBtn = hiddenCtl s.prevBtn ∧
      hiddenCtl t.nextBtn = hiddenCtl s.nextBtn ∧
      hiddenCtl t.submitBtn = hiddenCtl s.submitBtn := by
  obtain ⟨_, _, s3, s4, s5, s6⟩ := hs
  obtain ⟨_, _, t3, t4, t5, t6⟩ := ht
  rw [t3, t4, t5, t6, s3, s4, s5, s6, hcur, hlen]
  exact ⟨rfl, map_const_of_isSome _ _ _ hp, map_const_of_isSome _ _ _ hn,
    map_const_of_isSome _ _ _ hsb⟩

theorem nextBtnClick_currentStep (s : FormStepper)
    (h : s.currentStep < (s.formSteps.length : Int) - 1) :
    (nextBtnClick s).currentStep = s.currentStep + 1 := by
  unfold nextBtnClick
  rw [if_pos h, updateFormSteps_currentStep]

theorem prevBtnClick_currentStep (s : FormStepper) (h : s.currentStep > 0) :
    (prevBtnClick s).currentStep = s.currentStep - 1 := by
  unfold prevBtnClick
  rw [if_pos h, updateFormSteps_currentStep]

/-! ## The progressive form: main results -/

/-- C4: for a form with at least one step, after the script ran and after
every finite sequence of clicks on the next and previous buttons, the steps
are as many as before and the cursor `currentStep` is at least 0 and less
than the number of steps. -/
theorem stepper_cursor_in_range (steps : List (List String))
    (prev next submit : Option (List String)) (cs : List Click) (hN : 1 ≤ steps.length) :
    (clicks (initForm steps prev next submit) cs).formSteps.length = steps.length ∧
      0 ≤ (clicks (initForm steps prev next submit) cs).currentStep ∧
      (clicks (initForm steps prev next submit) cs).currentStep < (steps.length : Int) := by
  have hc := clicks_consistent _ cs (initForm_consistent steps prev next submit hN)
  have hl : (clicks (initForm steps prev next submit) cs).formSteps.length = steps.length := by
    rw [clicks_length, initForm_length]
  refine ⟨hl, hc.1, ?_⟩
  have := hc.2.1
  rw [hl] at this
  exact this

/-- C4, witness: the sample form of three steps and the clicks next, next,
next, previous. -/
theorem stepper_cursor_in_range_witness :
    1 ≤ sampleSteps.length ∧
      (clicks sampleForm sampleClicks).formSteps.length = sampleSteps.length ∧
      0 ≤ (clicks sampleForm sampleClicks).currentStep ∧
      (clicks sampleForm sampleClicks).currentStep < (sampleSteps.length : Int) :=
  ⟨by decide, stepper_cursor_in_range sampleSteps (some sampleBtn) (some sampleBtn)
    (some sampleBtn) sampleClicks (by decide)⟩

/-- C5: for a form with at least one step whose previous, next and submit
buttons exist, after the script ran and after every sequence of clicks on
the next and previous buttons, the three buttons still exist, the previous
button holds `hidden` exactly when the cursor is 0, the next button holds
`hidden` exactly when the cursor is the last index, and the submit button
is free of `hidden` exactly when the cursor is the last index. -/
theorem stepper_controls_match_cursor (steps : List (List String))
    (p n sb : List String) (cs : List Click) (hN : 1 ≤ steps.length) :
    ∃ p' n' sb',
      (clicks (initForm steps (some p) (some n) (some sb)) cs).prevBtn = some p' ∧
      (clicks (initForm steps (some p) (some n) (some sb)) cs).nextBtn = some n' ∧
      (clicks (initForm steps (some p) (some n) (some sb)) cs).submitBtn = some sb' ∧
      ("hidden" ∈ p' ↔
        (clicks (initForm steps (some p) (some n) (some sb)) cs).currentStep = 0) ∧
      ("hidden" ∈ n' ↔
        (clicks (initForm steps (some p) (some n) (some sb)) cs).currentStep =
          (steps.length : Int) - 1) ∧
      ("hidden" ∉ sb' ↔
        (clicks (initForm steps (some p) (some n) (some sb)) cs).currentStep =
          (steps.length : Int) - 1) := by
  have hc := clicks_consistent _ cs (initForm_consistent steps (some p) (some n) (some sb) hN)
  have hl : (clicks (initForm steps (some p) (some n) (some sb)) cs).formSteps.length
      = steps.length := by
    rw [clicks_length, initForm_length]
  obtain ⟨b1, b2, b3⟩ := clicks_buttons (initForm steps (some p) (some n) (some sb)) cs
  obtain ⟨i1, i2, i3⟩ := updateFormSteps_buttons ⟨steps, some p, some n, some sb, 0⟩
  have e1 : (clicks (initForm steps (some p) (some n) (some sb)) cs).prevBtn.isSome = true := by
    rw [b1]; exact i1
  have e2 : (clicks (initForm steps (some p) (some n) (some sb)) cs).nextBtn.isSome = true := by
    rw [b2]; exact i2
  have e3 : (clicks (initForm steps (some p) (some n) (some sb)) cs).submitBtn.isSome = true := by
    rw [b3]; exact i3
  obtain ⟨_, _, _, c4, c5, c6⟩ := hc
  rw [hl] at c5 c6
  generalize clicks (initForm steps (some p) (some n) (some sb)) cs = s at *
  obtain ⟨p', hp'⟩ := Option.isSome_iff_exists.mp e1
  obtain ⟨n', hn'⟩ := Option.isSome_iff_exists.mp e2
  obtain ⟨sb', hsb'⟩ := Option.isSome_iff_exists.mp e3
  refine ⟨p', n', sb', hp', hn', hsb', ?_, ?_, ?_⟩
  · rw [hp'] at c4
    simp only [hiddenCtl, Option.map_some', Option.some.injEq] at c4
    rw [← List.elem_iff, ← List.contains, c4]
    simp
  · rw [hn'] at c5
    simp only [hiddenCtl, Option.map_some', Option.some.injEq] at c5
    rw [← List.elem_iff, ← List.contains, c5]
    simp
  · rw [hsb'] at c6
    simp only [hiddenCtl, Option.map_some', Option.some.injEq] at c6
    rw [← List.elem_iff, ← List.contains, c6]
    simp

/-- C5, witness: the sample form, whose three buttons exist, after the
clicks next, next, next, previous. -/
theorem stepper_controls_match_cursor_witness :
    1 ≤ sampleSteps.length ∧
      ∃ p' n' sb',
        (clicks sampleForm sampleClicks).prevBtn = some p' ∧
        (clicks sampleForm sampleClicks).nextBtn = some n' ∧
        (clicks sampleForm sampleClicks).submitBtn = some sb' ∧
        ("hidden" ∈ p' ↔ (clicks sampleForm sampleClicks).currentStep = 0) ∧
        ("hidden" ∈ n' ↔
          (clicks sampleForm sampleClicks).currentStep = (sampleSteps.length : Int) - 1) ∧
        ("hidden" ∉ sb' ↔
          (clicks sampleForm sampleClicks).currentStep = (sampleSteps.length : Int) - 1) :=
  ⟨by decide, stepper_controls_match_cursor sampleSteps sampleBtn sampleBtn sampleBtn
    sampleClicks (by decide)⟩

/-- C6: in every state the form reaches by clicks after the script ran, if
the cursor is below the last index then a next click moves it up by one and
a previous click after it brings it back; the steps that hold `active` and
the `hidden` state of the previous, next and submit buttons are then the
same as before the two clicks. -/
theorem next_then_prev_round_trip (steps : List (List String))
    (prev next submit : Option (List String)) (cs : List Click)
    (hi : (clicks (initForm steps prev next submit) cs).currentStep <
      (steps.length : Int) - 1) :
    (nextBtnClick (clicks (initForm steps prev next submit) cs)).currentStep =
        (clicks (initForm steps prev next submit) cs).currentStep + 1 ∧
      (prevBtnClick (nextBtnClick (clicks (initForm steps prev next submit) cs))).currentStep =
        (clicks (initForm steps prev next submit) cs).currentStep ∧
      (prevBtnClick (nextBtnClick (clicks (initForm steps prev next submit) cs))).shownSteps =
        (clicks (initForm steps prev next submit) cs).shownSteps ∧
      hiddenCtl (prevBtnClick (nextBtnClick (clicks (initForm steps prev next submit) cs))).prevBtn
        = hiddenCtl (clicks (initForm steps prev next submit) cs).prevBtn ∧
      hiddenCtl (prevBtnClick (nextBtnClick (clicks (initForm steps prev next submit) cs))).nextBtn
        = hiddenCtl (clicks (initForm steps prev next submit) cs).nextBtn ∧
      hiddenCtl
          (prevBtnClick (nextBtnClick (clicks (initForm steps prev next submit) cs))).submitBtn
        = hiddenCtl (clicks (initForm steps prev next submit) cs).submitBtn := by
  have h0 : 0 ≤ (clicks (initForm steps prev next submit) cs).currentStep := by
    apply clicks_nonneg
    unfold initForm
    rw [updateFormSteps_currentStep]
  have hN : 1 ≤ steps.length := by omega
  have hc := clicks_consistent _ cs (initForm_consistent steps prev next submit hN)
  have hl : (clicks (initForm steps prev next submit) cs).formSteps.length = steps.length := by
    rw [clicks_length, initForm_length]
  generalize clicks (initForm steps prev next submit) cs = s at *
  have hi' : s.currentStep < (s.formSteps.length : Int) - 1 := by rw [hl]; exact hi
  have hn := nextBtnClick_currentStep s hi'
  have hpos : (nextBtnClick s).currentStep > 0 := by rw [hn]; omega
  have hp := prevBtnClick_currentStep (nextBtnClick s) hpos
  have hcur : (prevBtnClick (nextBtnClick s)).currentStep = s.currentStep := by
    rw [hp, hn]; omega
  have hc1 : Consistent (nextBtnClick s) := click_consistent s .next hc
  have hc2 : Consistent (prevBtnClick (nextBtnClick s)) :=
    click_consistent (nextBtnClick s) .prev hc1
  have hlen : (prevBtnClick (nextBtnClick s)).formSteps.length = s.formSteps.length :=
    (click_length (nextBtnClick s) .prev).trans (click_length s .next)
  obtain ⟨a1, a2, a3⟩ := click_buttons s .next
  obtain ⟨b1, b2, b3⟩ := click_buttons (nextBtnClick s) .prev
  exact ⟨hn, hcur, consistent_same_display s _ hc hc2 hcur hlen (b1.trans a1) (b2.trans a2)
    (b3.trans a3)⟩

/-- C6, witness: the sample form after one next click, with the cursor at
the interior index 1. -/
theorem next_then_prev_round_trip_witness :
    (clicks sampleForm [.next]).currentStep < (sampleSteps.length : Int) - 1 ∧
      (nextBtnClick (clicks sampleForm [.next])).currentStep =
        (clicks sampleForm [.next]).currentStep + 1 ∧
      (prevBtnClick (nextBtnClick (clicks sampleForm [.next]))).currentStep =
        (clicks sampleForm [.next]).currentStep ∧
      (prevBtnClick (nextBtnClick (clicks sampleForm [.next]))).shownSteps =
        (clicks sampleForm [.next]).shownSteps ∧
      hiddenCtl (prevBtnClick (nextBtnClick (clicks sampleForm [.next]))).prevBtn =
        hiddenCtl (clicks sampleForm [.next]).prevBtn ∧
      hiddenCtl (prevBtnClick (nextBtnClick (clicks sampleForm [.next]))).nextBtn =
        hiddenCtl (clicks sampleForm [.next]).nextBtn ∧
      hiddenCtl (prevBtnClick (nextBtnClick (clicks sampleForm [.next]))).submitBtn =
        hiddenCtl (clicks sampleForm [.next]).submitBtn :=
  ⟨by decide, next_then_prev_round_trip sampleSteps (some sampleBtn) (some sampleBtn)
    (some sampleBtn) [.next] (by decide)⟩

/-- C7: when the cursor is 0 a previous click leaves the whole state as it
is (the cursor, every step class list and every button class list), however
often it is repeated; when the cursor is the last index a next click leaves
the whole state as it is, however often it is repeated. -/
theorem clamped_clicks_change_nothing (s : FormStepper) (k : Nat) :
    (s.currentStep = 0 → prevBtnClick^[k] s = s) ∧
      (s.currentStep = (s.formSteps.length : Int) - 1 → nextBtnClick^[k] s = s) := by
  constructor
  · intro h
    apply Function.iterate_fixed
    simp [prevBtnClick, h]
  · intro h
    apply Function.iterate_fixed
    simp [nextBtnClick, h]

/-- C7, witness: five previous clicks on the sample form at cursor 0, and
five next clicks on it at cursor 2. -/
theorem clamped_clicks_change_nothing_witness :
    sampleForm.currentStep = 0 ∧ prevBtnClick^[5] sampleForm = sampleForm ∧
      (clicks sampleForm [.next, .next]).currentStep =
        ((clicks sampleForm [.next, .next]).formSteps.length : Int) - 1 ∧
      nextBtnClick^[5] (clicks sampleForm [.next, .next]) =
        clicks sampleForm [.next, .next] :=
  ⟨by decide, (clamped_clicks_change_nothing sampleForm 5).1 (by decide), by decide,
    (clamped_clicks_change_nothing (clicks sampleForm [.next, .next]) 5).2 (by decide)⟩

/-! ## The navigation intent: lemmas -/

theorem getItem_cons (key : String) (kv : String × String) (rest : Storage) :
    getItem key (kv :: rest) = if kv.1 = key then some kv.2 else getItem key rest := by
  unfold getItem
  by_cases h : kv.1 = key
  · simp [List.find?_cons, h]
  · simp [List.find?_cons, h]

theorem removeItem_cons (key : String) (kv : String × String) (rest : Storage) :
    removeItem key (kv :: rest) =
      if kv.1 = key then removeItem key rest else kv :: removeItem key rest := by
  unfold removeItem
  by_cases h : kv.1 = key
  · simp [List.filter_cons, h]
  · simp [List.filter_cons, h]

theorem getItem_removeItem_self (key : String) (ls : Storage) :
    getItem key (removeItem key ls) = none := by
  induction ls with
  | nil => rfl
  | cons kv rest ih =>
    rw [removeItem_cons]
    by_cases h : kv.1 = key
    · rw [if_pos h]; exact ih
    · rw [if_neg h, getItem_cons, if_neg h]; exact ih

theorem getItem_removeItem_ne (key other : String) (ls : Storage) (hne : key ≠ other) :
    getItem key (removeItem other ls) = getItem key ls := by
  induction ls with
  | nil => rfl
  | cons kv rest ih =>
    rw [removeItem_cons, getItem_cons]
    by_cases h : kv.1 = other
    · have hk : ¬ kv.1 = key := fun hk => hne (hk.symm.trans h)
      rw [if_pos h, if_neg hk]; exact ih
    · rw [if_neg h, getItem_cons]
      by_cases hk : kv.1 = key
      · rw [if_pos hk, if_pos hk]
      · rw [if_neg hk, if_neg hk]; exact ih

theorem checkStoredNavigation_create (engine : SelectorEngine) (ls : Storage)
    (doc : Doc)
    (hc : getItem "showCreateEvent" ls = some "true") :
    checkStoredNavigation engine ls doc = .ok (removeItem "showCreateEvent" ls,
      toggleViews "create-event-view"
        (markMatchingLink "create-event-view" (deselectLinks doc))) := by
  unfold checkStoredNavigation
  rw [if_pos hc, showView_safe engine "create-event-view" doc (by decide)]

theorem checkStoredNavigation_profile (engine : SelectorEngine) (ls : Storage)
    (doc : Doc)
    (hc : getItem "showCreateEvent" ls ≠ some "true")
    (hp : getItem "showProfile" ls = some "true") :
    checkStoredNavigation engine ls doc = .ok (removeItem "showProfile" ls,
      toggleViews "profile-page" (markMatchingLink "profile-page" (deselectLinks doc))) := by
  unfold checkStoredNavigation
  rw [if_neg hc, if_pos hp, showView_safe engine "profile-page" doc (by decide)]

theorem checkStoredNavigation_default (engine : SelectorEngine) (ls : Storage)
    (doc : Doc)
    (hc : getItem "showCreateEvent" ls ≠ some "true")
    (hp : getItem "showProfile" ls ≠ some "true") :
    checkStoredNavigation engine ls doc = .ok (ls,
      toggleViews "dashboard-overview"
        (markMatchingLink "dashboard-overview" (deselectLinks doc))) := by
  unfold checkStoredNavigation
  rw [if_neg hc, if_neg hp, showView_safe engine "dashboard-overview" doc (by decide)]

/-! ## The navigation intent: main results -/

/-- C8: when `showProfile` holds `true` and `showCreateEvent` does not, the
start-up check completes, whatever the selector engine, the view it
activates is `profile-page` (the document is the one
`showView('profile-page')` returns, in which a view container is visible
exactly when its id is `profile-page`, so exactly one is when the ids are
pairwise distinct and the profile view exists), and the key `showProfile`
is absent from the store afterwards. -/
theorem checkStoredNavigation_profile_intent (engine : SelectorEngine) (ls : Storage)
    (doc : Doc)
    (hp : getItem "showProfile" ls = some "true")
    (hc : getItem "showCreateEvent" ls ≠ some "true") :
    ∃ ls' doc', checkStoredNavigation engine ls doc = .ok (ls', doc') ∧
      showView engine "profile-page" doc = .ok doc' ∧
      getItem "showProfile" ls' = none ∧
      (∀ e ∈ doc', e.dashboardView = true → (e.visible = true ↔ e.id = "profile-page")) ∧
      ((viewIds doc).Nodup → "profile-page" ∈ viewIds doc →
        (visibleViews doc').length = 1) := by
  have hs := showView_safe engine "profile-page" doc (by decide)
  obtain ⟨_, hvis, hcount⟩ := showView_views engine "profile-page" doc _ hs
  refine ⟨_, _, checkStoredNavigation_profile engine ls doc hc hp, hs,
    getItem_removeItem_self _ _, hvis, ?_⟩
  intro hnodup hmem
  rw [hcount]
  exact List.count_eq_one_of_mem hnodup hmem

/-- C8, witness: the store with the profile intent and the sample page. -/
theorem checkStoredNavigation_profile_intent_witness :
    getItem "showProfile" profileIntentStore = some "true" ∧
      getItem "showCreateEvent" profileIntentStore ≠ some "true" ∧
      ∃ ls' doc',
        checkStoredNavigation rejectingEngine profileIntentStore samplePage =
          .ok (ls', doc') ∧
        showView rejectingEngine "profile-page" samplePage = .ok doc' ∧
        getItem "showProfile" ls' = none ∧
        (∀ e ∈ doc', e.dashboardView = true →
          (e.visible = true ↔ e.id = "profile-page")) ∧
        ((viewIds samplePage).Nodup → "profile-page" ∈ viewIds samplePage →
          (visibleViews doc').length = 1) :=
  ⟨by decide, by decide,
    checkStoredNavigation_profile_intent rejectingEngine profileIntentStore samplePage
      (by decide) (by decide)⟩

/-- C9: when neither `showCreateEvent` nor `showProfile` holds `true`, the
start-up check completes, whatever the selector engine, the view it
activates is `dashboard-overview` (the document is the one
`showView('dashboard-overview')` returns, in which a view container is
visible exactly when its id is `dashboard-overview`), and the store is the
one it started with. -/
theorem checkStoredNavigation_no_intent (engine : SelectorEngine) (ls : Storage)
    (doc : Doc)
    (hc : getItem "showCreateEvent" ls ≠ some "true")
    (hp : getItem "showProfile" ls ≠ some "true") :
    ∃ doc', checkStoredNavigation engine ls doc = .ok (ls, doc') ∧
      showView engine "dashboard-overview" doc = .ok doc' ∧
      (∀ e ∈ doc', e.dashboardView = true →
        (e.visible = true ↔ e.id = "dashboard-overview")) ∧
      ((viewIds doc).Nodup → "dashboard-overview" ∈ viewIds doc →
        (visibleViews doc').length = 1) := by
  have hs := showView_safe engine "dashboard-overview" doc (by decide)
  obtain ⟨_, hvis, hcount⟩ := showView_views engine "dashboard-overview" doc _ hs
  refine ⟨_, checkStoredNavigation_default engine ls doc hc hp, hs, hvis, ?_⟩
  intro hnodup hmem
  rw [hcount]
  exact List.count_eq_one_of_mem hnodup hmem

/-- C9, witness: the store without intent and the sample page. -/
theorem checkStoredNavigation_no_intent_witness :
    getItem "showCreateEvent" noIntentStore ≠ some "true" ∧
      getItem "showProfile" noIntentStore ≠ some "true" ∧
      ∃ doc',
        checkStoredNavigation rejectingEngine noIntentStore samplePage =
          .ok (noIntentStore, doc') ∧
        showView rejectingEngine "dashboard-overview" samplePage = .ok doc' ∧
        (∀ e ∈ doc', e.dashboardView = true →
          (e.visible = true ↔ e.id = "dashboard-overview")) ∧
        ((viewIds samplePage).Nodup → "dashboard-overview" ∈ viewIds samplePage →
          (visibleViews doc').length = 1) :=
  ⟨by decide, by decide,
    checkStoredNavigation_no_intent rejectingEngine noIntentStore samplePage (by decide)
      (by decide)⟩

/-- C10 (as amended): for every content of the store and every selector
engine the start-up check completes, and afterwards `showCreateEvent` does
not hold `true`, while `showProfile` holds `true` only if both keys held
`true` before.  A key that holds another value than `true` is left in place
with its value.  When the two keys did not both hold `true`, no intent is
left: a second start-up check on the store as it was left, on any page,
activates `dashboard-overview` and leaves the store as it is. -/
theorem checkStoredNavigation_clears_acted_intent (engine : SelectorEngine)
    (ls : Storage) (doc : Doc) :
    ∃ ls' doc', checkStoredNavigation engine ls doc = .ok (ls', doc') ∧
      getItem "showCreateEvent" ls' ≠ some "true" ∧
      (getItem "showProfile" ls' = some "true" →
        getItem "showCreateEvent" ls = some "true" ∧
          getItem "showProfile" ls = some "true") ∧
      (¬ (getItem "showCreateEvent" ls = some "true" ∧
          getItem "showProfile" ls = some "true") →
        ∀ doc2, ∃ d2, checkStoredNavigation engine ls' doc2 = .ok (ls', d2) ∧
          showView engine "dashboard-overview" doc2 = .ok d2) ∧
      (∀ key value, getItem key ls = some value → value ≠ "true" →
        getItem key ls' = some value) := by
  by_cases hc : getItem "showCreateEvent" ls = some "true"
  · have h1 : getItem "showCreateEvent" (removeItem "showCreateEvent" ls) ≠ some "true" := by
      rw [getItem_removeItem_self]; simp
    have h2 : getItem "showProfile" (removeItem "showCreateEvent" ls) =
        getItem "showProfile" ls :=
      getItem_removeItem_ne _ _ ls (by decide)
    refine ⟨_, _, checkStoredNavigation_create engine ls doc hc, h1, ?_, ?_, ?_⟩
    · intro hp
      exact ⟨hc, h2 ▸ hp⟩
    · intro hnot doc2
      have hp : getItem "showProfile" (removeItem "showCreateEvent" ls) ≠ some "true" := by
        rw [h2]
        exact fun hp => hnot ⟨hc, hp⟩
      exact ⟨_, checkStoredNavigation_default engine _ doc2 h1 hp,
        showView_safe engine "dashboard-overview" doc2 (by decide)⟩
    · intro key value hk hv
      have hne : key ≠ "showCreateEvent" := by
        intro h
        rw [h, hc] at hk
        exact hv (Option.some.inj hk).symm
      rw [getItem_removeItem_ne key _ ls hne]
      exact hk
  · by_cases hp : getItem "showProfile" ls = some "true"
    · have h1 : getItem "showCreateEvent" (removeItem "showProfile" ls) ≠ some "true" := by
        rw [getItem_removeItem_ne _ _ ls (by decide)]
        exact hc
      have h2 : getItem "showProfile" (removeItem "showProfile" ls) ≠ some "true" := by
        rw [getItem_removeItem_self]; simp
      refine ⟨_, _, checkStoredNavigation_profile engine ls doc hc hp, h1, ?_, ?_, ?_⟩
      · intro h
        exact absurd h h2
      · intro _ doc2
        exact ⟨_, checkStoredNavigation_default engine _ doc2 h1 h2,
          showView_safe engine "dashboard-overview" doc2 (by decide)⟩
      · intro key value hk hv
        have hne : key ≠ "showProfile" := by
          intro h
          rw [h, hp] at hk
          exact hv (Option.some.inj hk).symm
        rw [getItem_removeItem_ne key _ ls hne]
        exact hk
    · refine ⟨_, _, checkStoredNavigation_default engine ls doc hc hp, hc, ?_, ?_, ?_⟩
      · intro h
        exact absurd h hp
      · intro _ doc2
        exact ⟨_, checkStoredNavigation_default engine ls doc2 hc hp,
          showView_safe engine "dashboard-overview" doc2 (by decide)⟩
      · intro key value hk _
        exact hk

/-- C10, counterexample: both keys hold `true`.  The start-up check removes
`showCreateEvent` only; `showProfile` is still present and still holds
`true`, and a second start-up check with nothing written in between
activates `profile-page`, not the default view.  Also, a key that holds
another value than `true` is not deleted: `showProfile` with the value
`false` is still present after the check. -/
theorem checkStoredNavigation_leaves_second_intent :
    (∃ ls' doc',
      (∀ engine : SelectorEngine,
        checkStoredNavigation engine bothIntentsStore twoViewPage = .ok (ls', doc')) ∧
      getItem "showProfile" ls' = some "true" ∧
      ∃ ls2 doc2,
        (∀ engine : SelectorEngine,
          checkStoredNavigation engine ls' twoViewPage = .ok (ls2, doc2)) ∧
        (∀ engine : SelectorEngine, showView engine "profile-page" twoViewPage = .ok doc2) ∧
        (∀ engine : SelectorEngine,
          showView engine "dashboard-overview" twoViewPage ≠ .ok doc2)) ∧
      (∃ ls' doc',
        (∀ engine : SelectorEngine,
          checkStoredNavigation engine noIntentStore twoViewPage = .ok (ls', doc')) ∧
        getItem "showProfile" ls' = some "false") := by
  refine ⟨⟨_, _, fun _ => rfl, by decide, _, _, fun _ => rfl, fun _ => rfl, ?_⟩,
    ⟨_, _, fun _ => rfl, by decide⟩⟩
  intro engine h
  rw [showView_safe engine "dashboard-overview" twoViewPage (by decide)] at h
  injection h with h
  revert h
  decide

/-! ## The event form: lemmas -/

theorem validateRequired_valid (fields : List Field) (isValid : Bool) :
    (validateRequired fields isValid).2 = true ↔
      isValid = true ∧ ∀ f ∈ fields, f.required = true → jsTrim f.value ≠ "" := by
  induction fields generalizing isValid with
  | nil => simp [validateRequired]
  | cons field rest ih =>
    unfold validateRequired
    by_cases hr : field.required = true
    · by_cases hb : jsTrim field.value = ""
      · rw [if_pos hr, if_pos hb]
        show (validateRequired rest false).2 = true ↔ _
        rw [ih false]
        constructor
        · intro h; exact absurd h.1 (by decide)
        · intro h; exact absurd hb (h.2 field (List.mem_cons_self _ _) hr)
      · rw [if_pos hr, if_neg hb]
        show (validateRequired rest isValid).2 = true ↔ _
        rw [ih isValid]
        constructor
        · rintro ⟨hv, h⟩
          refine ⟨hv, ?_⟩
          intro f hf
          rcases List.mem_cons.mp hf with rfl | hf
          · exact fun _ => hb
          · exact h f hf
        · rintro ⟨hv, h⟩
          exact ⟨hv, fun f hf => h f (List.mem_cons_of_mem _ hf)⟩
    · rw [if_neg hr]
      show (validateRequired rest isValid).2 = true ↔ _
      rw [ih isValid]
      constructor
      · rintro ⟨hv, h⟩
        refine ⟨hv, ?_⟩
        intro f hf
        rcases List.mem_cons.mp hf with rfl | hf
        · exact fun h' => absurd h' hr
        · exact h f hf
      · rintro ⟨hv, h⟩
        exact ⟨hv, fun f hf => h f (List.mem_cons_of_mem _ hf)⟩

theorem validateRequired_fields (fields : List Field) (isValid : Bool) :
    List.Forall₂
      (fun f g : Field => g.required = f.required ∧ g.value = f.value ∧ g.step = f.step ∧
        g.borderColor =
          if f.required = true then
            if jsTrim f.value = "" then "#dc3545" else "#28a745"
          else f.borderColor)
      fields (validateRequired fields isValid).1 := by
  induction fields generalizing isValid with
  | nil => simp [validateRequired]
  | cons field rest ih =>
    unfold validateRequired
    by_cases hr : field.required = true
    · by_cases hb : jsTrim field.value = ""
      · rw [if_pos hr, if_pos hb]
        refine List.Forall₂.cons ⟨rfl, rfl, rfl, ?_⟩ (ih false)
        rw [if_pos hr, if_pos hb]
      · rw [if_pos hr, if_neg hb]
        refine List.Forall₂.cons ⟨rfl, rfl, rfl, ?_⟩ (ih isValid)
        rw [if_pos hr, if_neg hb]
    · rw [if_neg hr]
      refine List.Forall₂.cons ⟨rfl, rfl, rfl, ?_⟩ (ih isValid)
      rw [if_neg hr]

theorem eventFormSubmit_fields (form : EventForm) :
    (eventFormSubmit form).form.fields = (validateRequired form.fields true).1 := by
  unfold eventFormSubmit
  by_cases h : (validateRequired form.fields true).2 = true
  · simp [h]
  · simp [h]

theorem eventFormSubmit_prevented (form : EventForm) :
    (eventFormSubmit form).defaultPrevented = true ↔
      ∃ f ∈ form.fields, f.required = true ∧ jsTrim f.value = "" := by
  have hv := validateRequired_valid form.fields true
  unfold eventFormSubmit
  by_cases h : (validateRequired form.fields true).2 = true
  · have := hv.mp h
    simp only [h, Bool.not_true, Bool.false_eq_true, if_false, false_iff]
    rintro ⟨f, hf, hr, hb⟩
    exact this.2 f hf hr hb
  · simp only [h, Bool.not_false, if_true, true_iff]
    by_contra hne
    apply h
    rw [hv]
    refine ⟨rfl, ?_⟩
    intro f hf hr hb
    exact hne ⟨f, hf, hr, hb⟩

theorem eventFormSubmit_alerts (form : EventForm) :
    (eventFormSubmit form).alerts =
      if (eventFormSubmit form).defaultPrevented = true then
        ["Please fill in all required fields."]
      else [] := by
  unfold eventFormSubmit
  by_cases h : (validateRequired form.fields true).2 = true
  · simp [h]
  · simp [h]

theorem eventFormSubmit_submitBtn (form : EventForm) :
    (eventFormSubmit form).form.submitBtn =
      if (eventFormSubmit form).defaultPrevented = true then form.submitBtn
      else form.submitBtn.map fun _ => ⟨"Submitting...", true⟩ := by
  unfold eventFormSubmit
  by_cases h : (validateRequired form.fields true).2 = true
  · simp [h]
  · simp [h]

theorem handle_keeps_disabled (p : EventPage) (ev : PageEvent)
    (h : ∃ b, p.form.submitBtn = some b ∧ b.disabled = true) :
    ∃ b, (handle p ev).form.submitBtn = some b ∧ b.disabled = true := by
  obtain ⟨b, hb, hd⟩ := h
  cases ev with
  | click c => exact ⟨b, hb, hd⟩
  | submit =>
    show ∃ b, (eventFormSubmit p.form).form.submitBtn = some b ∧ b.disabled = true
    rw [eventFormSubmit_submitBtn]
    split
    · exact ⟨b, hb, hd⟩
    · rw [hb]
      exact ⟨_, rfl, rfl⟩

theorem handleAll_keeps_disabled (p : EventPage) (evs : List PageEvent)
    (h : ∃ b, p.form.submitBtn = some b ∧ b.disabled = true) :
    ∃ b, (handleAll p evs).form.submitBtn = some b ∧ b.disabled = true := by
  induction evs generalizing p with
  | nil => exact h
  | cons ev evs ih => exact ih (handle p ev) (handle_keeps_disabled p ev h)

/-! ## The event form: main results -/

/-- C11: the submit handler of the event form calls `preventDefault` exactly
when some control of the form that is flagged required, on whatever step it
sits, holds a value that is empty after trimming; it raises the notice
`Please fill in all required fields.` when it does and no notice when it
does not. -/
theorem submit_blocked_iff_required_blank (form : EventForm) :
    ((eventFormSubmit form).defaultPrevented = true ↔
        ∃ f ∈ form.fields, f.required = true ∧ jsTrim f.value = "") ∧
      ((eventFormSubmit form).defaultPrevented = true →
        (eventFormSubmit form).alerts = ["Please fill in all required fields."]) ∧
      ((eventFormSubmit form).defaultPrevented = false →
        (eventFormSubmit form).alerts = []) := by
  refine ⟨eventFormSubmit_prevented form, ?_, ?_⟩
  · intro h
    rw [eventFormSubmit_alerts, if_pos h]
  · intro h
    rw [eventFormSubmit_alerts, h]
    rfl

/-- C11, witness: the sample form whose blank required field sits on step 2
is blocked; the sample form with all required fields filled is not. -/
theorem submit_blocked_iff_required_blank_witness :
    (eventFormSubmit ⟨blankFields, some sampleSubmitBtn⟩).defaultPrevented = true ∧
      (eventFormSubmit ⟨blankFields, some sampleSubmitBtn⟩).alerts =
        ["Please fill in all required fields."] ∧
      (eventFormSubmit ⟨filledFields, some sampleSubmitBtn⟩).defaultPrevented = false ∧
      (eventFormSubmit ⟨filledFields, some sampleSubmitBtn⟩).alerts = [] :=
  ⟨by decide,
    (submit_blocked_iff_required_blank ⟨blankFields, some sampleSubmitBtn⟩).2.1 (by decide),
    by decide,
    (submit_blocked_iff_required_blank ⟨filledFields, some sampleSubmitBtn⟩).2.2 (by decide)⟩

/-- C12: for an event form with a submit control, when every required field
holds a value that is not empty after trimming, the submit handler does not
call `preventDefault` and leaves the control disabled with the label
`Submitting...`; when it blocks the submission, the label and the disabled
state are as before.  No handler re-enables the control: once it is
disabled it is still disabled after every sequence of next clicks, previous
clicks and submits. -/
theorem submit_disables_control (form : EventForm) (btn : SubmitControl)
    (hbtn : form.submitBtn = some btn) :
    ((∀ f ∈ form.fields, f.required = true → jsTrim f.value ≠ "") →
        (eventFormSubmit form).defaultPrevented = false ∧
          (eventFormSubmit form).form.submitBtn = some ⟨"Submitting...", true⟩) ∧
      ((eventFormSubmit form).defaultPrevented = true →
        (eventFormSubmit form).form.submitBtn = some btn) ∧
      (btn.disabled = true → ∀ (stepper : FormStepper) (evs : List PageEvent),
        ∃ b, (handleAll ⟨stepper, form⟩ evs).form.submitBtn = some b ∧
          b.disabled = true) := by
  refine ⟨?_, ?_, ?_⟩
  · intro hall
    have hnp : ¬ (eventFormSubmit form).defaultPrevented = true := by
      rw [eventFormSubmit_prevented]
      rintro ⟨f, hf, hr, hb⟩
      exact hall f hf hr hb
    refine ⟨by simpa using hnp, ?_⟩
    rw [eventFormSubmit_submitBtn, if_neg hnp, hbtn]
    rfl
  · intro hp
    rw [eventFormSubmit_submitBtn, if_pos hp, hbtn]
  · intro hd stepper evs
    exact handleAll_keeps_disabled ⟨stepper, form⟩ evs ⟨btn, hbtn, hd⟩

/-- C12, witness: the filled sample form with its submit button. -/
theorem submit_disables_control_witness :
    (⟨filledFields, some sampleSubmitBtn⟩ : EventForm).submitBtn = some sampleSubmitBtn ∧
      (∀ f ∈ filledFields, f.required = true → jsTrim f.value ≠ "") ∧
      (eventFormSubmit ⟨filledFields, some sampleSubmitBtn⟩).defaultPrevented = false ∧
      (eventFormSubmit ⟨filledFields, some sampleSubmitBtn⟩).form.submitBtn =
        some ⟨"Submitting...", true⟩ :=
  ⟨rfl, by decide,
    (submit_disables_control ⟨filledFields, some sampleSubmitBtn⟩ sampleSubmitBtn rfl).1
      (by decide)⟩

/-- C20: after the submit handler ran, every control of the form has its
flag, value and step as before; every required one has the border colour
`#dc3545` if its own trimmed value is empty and `#28a745` otherwise, whatever
the other fields hold and whether or not the submission is blocked; a
control that is not required keeps its border colour. -/
theorem submit_marks_every_required_field (form : EventForm) :
    List.Forall₂
      (fun f g : Field => g.required = f.required ∧ g.value = f.value ∧ g.step = f.step ∧
        g.borderColor =
          if f.required = true then
            if jsTrim f.value = "" then "#dc3545" else "#28a745"
          else f.borderColor)
      form.fields (eventFormSubmit form).form.fields := by
  rw [eventFormSubmit_fields]
  exact validateRequired_fields form.fields true

/-! ## The progressive form: one step at a time -/

theorem toggleSteps_getElem_opt (c : Int) (i : Nat) (l : List (List String)) (k : Nat) :
    (toggleSteps c i l)[k]? =
      (l[k]?).map (classToggle "active" (decide (((i + k : Nat) : Int) = c))) := by
  induction l generalizing i k with
  | nil => simp [toggleSteps]
  | cons step rest ih =>
    cases k with
    | zero => simp [toggleSteps]
    | succ k =>
      simp only [toggleSteps, List.getElem?_cons_succ]
      rw [ih (i + 1) k]
      have : i + 1 + k = i + (k + 1) := by omega
      rw [this]

theorem toggleSteps_active_count (c : Int) (i : Nat) (l : List (List String)) :
    ((toggleSteps c i l).filter fun step => step.contains "active").length =
      if (i : Int) ≤ c ∧ c < (i : Int) + (l.length : Int) then 1 else 0 := by
  induction l generalizing i with
  | nil =>
    simp only [toggleSteps, List.filter_nil, List.length_nil]
    split
    · omega
    · rfl
  | cons step rest ih =>
    simp only [toggleSteps, List.filter_cons, contains_classToggle, List.length_cons]
    by_cases hi : (i : Int) = c
    · simp only [hi, decide_True, if_true, List.length_cons]
      rw [ih (i + 1)]
      have h1 : ¬ (((i + 1 : Nat) : Int) ≤ c ∧ c < ((i + 1 : Nat) : Int) + (rest.length : Int)) := by
        omega
      have h2 : c ≤ c ∧ c < c + ((rest.length : Int) + 1) := by omega
      rw [if_neg h1]
      simp only [Nat.cast_add, Nat.cast_one]
      rw [if_pos h2]
    · simp only [hi, decide_False, Bool.false_eq_true, if_false]
      rw [ih (i + 1)]
      simp only [Nat.cast_add, Nat.cast_one]
      by_cases h : (i : Int) + 1 ≤ c ∧ c < (i : Int) + 1 + (rest.length : Int)
      · have h2 : (i : Int) ≤ c ∧ c < (i : Int) + ((rest.length : Int) + 1) := by omega
        rw [if_pos h, if_pos h2]
      · have h2 : ¬ ((i : Int) ≤ c ∧ c < (i : Int) + ((rest.length : Int) + 1)) := by omega
        rw [if_neg h, if_neg h2]

theorem updateFormSteps_oneActive (s : FormStepper) (h0 : 0 ≤ s.currentStep)
    (hlt : s.currentStep < (s.formSteps.length : Int)) : OneActiveStep (updateFormSteps s) := by
  have hne : ¬ s.formSteps.length = 0 := by
    intro h; rw [h] at hlt; simp at hlt; omega
  constructor
  · simp only [updateFormSteps, if_neg hne]
    rw [toggleSteps_active_count]
    have : ((0 : Nat) : Int) ≤ s.currentStep ∧
        s.currentStep < ((0 : Nat) : Int) + (s.formSteps.length : Int) := by
      constructor
      · simpa using h0
      · simpa using hlt
    rw [if_pos this]
  · intro k step hk
    rw [updateFormSteps_currentStep]
    simp only [updateFormSteps, if_neg hne] at hk
    rw [toggleSteps_getElem_opt] at hk
    cases hl : s.formSteps[k]? with
    | none => rw [hl] at hk; simp at hk
    | some st =>
      rw [hl] at hk
      simp only [Option.map_some', Option.some.injEq] at hk
      subst hk
      rw [← List.elem_iff, ← List.contains, contains_classToggle]
      simp

/-- C19: for a form whose cursor is an index of its steps (so it has at
least one step), a next click below the last index moves the cursor up by
exactly one and a previous click above index 0 moves it down by exactly one,
and after either move exactly one form step holds `active`, the step at the
new cursor; the same holds right after the script ran, with the cursor 0,
for every form with at least one step. -/
theorem stepper_moves_one_step (s : FormStepper) (h0 : 0 ≤ s.currentStep)
    (hlt : s.currentStep < (s.formSteps.length : Int)) :
    (s.currentStep < (s.formSteps.length : Int) - 1 →
        (nextBtnClick s).currentStep = s.currentStep + 1 ∧ OneActiveStep (nextBtnClick s)) ∧
      (s.currentStep > 0 →
        (prevBtnClick s).currentStep = s.currentStep - 1 ∧ OneActiveStep (prevBtnClick s)) ∧
      (∀ (steps : List (List String)) (prev next submit : Option (List String)),
        1 ≤ steps.length →
          (initForm steps prev next submit).currentStep = 0 ∧
            OneActiveStep (initForm steps prev next submit)) := by
  refine ⟨?_, ?_, ?_⟩
  · intro h
    refine ⟨nextBtnClick_currentStep s h, ?_⟩
    unfold nextBtnClick
    rw [if_pos h]
    apply updateFormSteps_oneActive
    · show 0 ≤ s.currentStep + 1
      omega
    · show s.currentStep + 1 < (s.formSteps.length : Int)
      omega
  · intro h
    refine ⟨prevBtnClick_currentStep s h, ?_⟩
    unfold prevBtnClick
    rw [if_pos h]
    apply updateFormSteps_oneActive
    · show 0 ≤ s.currentStep - 1
      omega
    · show s.currentStep - 1 < (s.formSteps.length : Int)
      omega
  · intro steps prev next submit hN
    constructor
    · unfold initForm
      rw [updateFormSteps_currentStep]
    · unfold initForm
      apply updateFormSteps_oneActive
      · show (0 : Int) ≤ 0
        omega
      · show (0 : Int) < (steps.length : Int)
        omega

/-- C19, witness: the sample form after one next click, at cursor 1 of its
three steps. -/
theorem stepper_moves_one_step_witness :
    0 ≤ (clicks sampleForm [.next]).currentStep ∧
      (clicks sampleForm [.next]).currentStep <
        ((clicks sampleForm [.next]).formSteps.length : Int) ∧
      ((nextBtnClick (clicks sampleForm [.next])).currentStep =
          (clicks sampleForm [.next]).currentStep + 1 ∧
        OneActiveStep (nextBtnClick (clicks sampleForm [.next]))) ∧
      ((prevBtnClick (clicks sampleForm [.next])).currentStep =
          (clicks sampleForm [.next]).currentStep - 1 ∧
        OneActiveStep (prevBtnClick (clicks sampleForm [.next]))) :=
  ⟨by decide, by decide,
    (stepper_moves_one_step (clicks sampleForm [.next]) (by decide) (by decide)).1
      (by decide),
    (stepper_moves_one_step (clicks sampleForm [.next]) (by decide) (by decide)).2.1
      (by decide)⟩

/-! ## The organizer search: lemmas -/

theorem setRowDisplay_append (pre : List Row) (d : String) (row : Row) (rest : List Row) :
    setRowDisplay pre.length d (pre ++ row :: rest) =
      pre ++ { row with display := d } :: rest := by
  induction pre with
  | nil => rfl
  | cons p pre ih =>
    show p :: setRowDisplay pre.length d (pre ++ row :: rest) = _
    rw [ih]
    rfl

/-- The row a search leaves: a row with at least four cells is shown or
hidden by its first cell, any other row is kept. -/
theorem getEventsFrom_foldl (toLowerCase : String → String) (searchTerm : String)
    (pre rows : List Row) :
    (getEventsFrom pre.length rows).foldl
        (fun rows event =>
          if jsIncludes (toLowerCase event.title) searchTerm then
            setRowDisplay event.row "" rows
          else setRowDisplay event.row "none" rows)
        (pre ++ rows) =
      pre ++ rows.map fun row =>
        if 4 ≤ row.cells.length then
          { row with
            display :=
              if jsIncludes (toLowerCase (jsTrim (row.cells.getD 0 ""))) searchTerm then ""
              else "none" }
        else row := by
  induction rows generalizing pre with
  | nil => simp [getEventsFrom]
  | cons row rest ih =>
    obtain ⟨cells, display⟩ := row
    have hlen : (pre ++ [(⟨cells, display⟩ : Row)]).length = pre.length + 1 := by simp
    match cells with
    | [] =>
      have := ih (pre ++ [⟨[], display⟩])
      rw [hlen] at this
      simpa [getEventsFrom] using this
    | [a] =>
      have := ih (pre ++ [⟨[a], display⟩])
      rw [hlen] at this
      simpa [getEventsFrom] using this
    | [a, b] =>
      have := ih (pre ++ [⟨[a, b], display⟩])
      rw [hlen] at this
      simpa [getEventsFrom] using this
    | [a, b, c] =>
      have := ih (pre ++ [⟨[a, b, c], display⟩])
      rw [hlen] at this
      simpa [getEventsFrom] using this
    | c0 :: c1 :: c2 :: c3 :: more =>
      simp only [getEventsFrom, List.foldl_cons]
      by_cases hinc : jsIncludes (toLowerCase (jsTrim c0)) searchTerm = true
      · rw [if_pos hinc, setRowDisplay_append]
        have := ih (pre ++ [⟨c0 :: c1 :: c2 :: c3 :: more, ""⟩])
        rw [List.length_append, List.length_singleton] at this
        simpa [hinc] using this
      · rw [if_neg hinc, setRowDisplay_append]
        have := ih (pre ++ [⟨c0 :: c1 :: c2 :: c3 :: more, "none"⟩])
        rw [List.length_append, List.length_singleton] at this
        simpa [hinc] using this

theorem searchInputHandler_rows (toLowerCase : String → String) (value : String)
    (rows : List Row) :
    searchInputHandler toLowerCase value (some rows) =
      some (rows.map fun row =>
        if 4 ≤ row.cells.length then
          { row with
            display :=
              if jsIncludes (toLowerCase (jsTrim (row.cells.getD 0 ""))) (toLowerCase value)
              then "" else "none" }
        else row) := by
  have h := getEventsFrom_foldl toLowerCase (toLowerCase value) [] rows
  simp only [List.length_nil, List.nil_append] at h
  simp only [searchInputHandler, getEventsFromDOM, Option.map_some', h]

/-! ## The organizer search: main result -/

/-- C13: for every search term and every list of rows the `input` handler of
the organizer search keeps every row and its cells; a row with at least four
cells gets the display `''` when its trimmed first cell (the title),
lower-cased, contains the lower-cased term, and `'none'` otherwise; a row
with fewer cells keeps its display.  With the term `work` over rows titled
`AI Workshop` and `Hackathon` the first row is shown and the second hidden,
for every `toLowerCase` that lower-cases these three texts the way
ECMAScript does. -/
theorem search_shows_matching_titles (toLowerCase : String → String) (value : String)
    (rows : List Row) :
    (∃ rows', searchInputHandler toLowerCase value (some rows) = some rows' ∧
      List.Forall₂
        (fun r r' : Row => r'.cells = r.cells ∧
          r'.display =
            if 4 ≤ r.cells.length then
              if jsIncludes (toLowerCase (jsTrim (r.cells.getD 0 ""))) (toLowerCase value)
              then "" else "none"
            else r.display)
        rows rows') ∧
      (toLowerCase "work" = "work" → toLowerCase "AI Workshop" = "ai workshop" →
        toLowerCase "Hackathon" = "hackathon" →
        searchInputHandler toLowerCase "work" (some sampleRows) =
          some [⟨["AI Workshop", "Tech", "2025-01-10", "Approved"], ""⟩,
            ⟨["Hackathon", "Tech", "2025-02-01", "Pending"], "none"⟩]) := by
  constructor
  · refine ⟨_, searchInputHandler_rows toLowerCase value rows, ?_⟩
    rw [List.forall₂_map_right_iff, List.forall₂_same]
    intro r _
    by_cases h : 4 ≤ r.cells.length
    · simp [h]
    · simp [h]
  · intro h1 h2 h3
    have t1 : jsTrim "AI Workshop" = "AI Workshop" := by decide
    have t2 : jsTrim "Hackathon" = "Hackathon" := by decide
    have i1 : jsIncludes "ai workshop" "work" = true := by decide
    have i2 : jsIncludes "hackathon" "work" = false := by decide
    rw [searchInputHandler_rows]
    simp [sampleRows, t1, t2, h1, h2, h3, i1, i2]

/-- C13, witness: the two sample rows and the term `work`, with the
lower-casing of the ASCII letters. -/
theorem search_shows_matching_titles_witness :
    asciiLowerCase "work" = "work" ∧ asciiLowerCase "AI Workshop" = "ai workshop" ∧
      asciiLowerCase "Hackathon" = "hackathon" ∧
      searchInputHandler asciiLowerCase "work" (some sampleRows) =
        some [⟨["AI Workshop", "Tech", "2025-01-10", "Approved"], ""⟩,
          ⟨["Hackathon", "Tech", "2025-02-01", "Pending"], "none"⟩] :=
  ⟨by decide, by decide, by decide,
    (search_shows_matching_titles asciiLowerCase "work" sampleRows).2 (by decide)
      (by decide) (by decide)⟩

/-! ## The student search: main result -/

theorem fieldText_eq (toLowerCase : String → String) (text : Option String) :
    fieldText toLowerCase text = (text.map toLowerCase).getD "" := by
  cases text with
  | none => rfl
  | some t =>
    simp only [fieldText, Option.map_some', Option.getD_some]
    split
    · next h => exact h.symm
    · rfl

/-- C14: for every search term and every list of event cards the `keyup`
handler of the student search keeps every card and its texts; a card gets
the display `block` exactly when the lower-cased term occurs in its
lower-cased title, in its lower-cased organizer text or in its lower-cased
location text, a missing text counting as the empty string, and the display
`none` exactly when it occurs in none of the three. -/
theorem student_search_matches_three_fields (toLowerCase : String → String)
    (value : String) (eventCards : List Card) :
    List.Forall₂
      (fun c c' : Card =>
        c'.title = c.title ∧ c'.organizer = c.organizer ∧ c'.location = c.location ∧
        (c'.display = "block" ↔
          (jsIncludes ((c.title.map toLowerCase).getD "") (toLowerCase value) = true ∨
            jsIncludes ((c.organizer.map toLowerCase).getD "") (toLowerCase value) = true ∨
            jsIncludes ((c.location.map toLowerCase).getD "") (toLowerCase value) = true)) ∧
        (c'.display = "none" ↔
          ¬ (jsIncludes ((c.title.map toLowerCase).getD "") (toLowerCase value) = true ∨
            jsIncludes ((c.organizer.map toLowerCase).getD "") (toLowerCase value) = true ∨
            jsIncludes ((c.location.map toLowerCase).getD "") (toLowerCase value) = true)))
      eventCards (searchBarHandler toLowerCase value eventCards) := by
  unfold searchBarHandler
  rw [List.forall₂_map_right_iff, List.forall₂_same]
  intro c _
  simp only [fieldText_eq]
  by_cases h : (jsIncludes ((c.title.map toLowerCase).getD "") (toLowerCase value) ||
      jsIncludes ((c.organizer.map toLowerCase).getD "") (toLowerCase value) ||
      jsIncludes ((c.location.map toLowerCase).getD "") (toLowerCase value)) = true
  · rw [if_pos h]
    simp only [Bool.or_eq_true] at h
    refine ⟨rfl, rfl, rfl, ?_, ?_⟩
    · constructor
      · intro _
        rcases h with (h | h) | h
        · exact Or.inl h
        · exact Or.inr (Or.inl h)
        · exact Or.inr (Or.inr h)
      · intro _; rfl
    · constructor
      · intro hd
        have hd' : ("block" : String) = "none" := hd
        exact absurd hd' (by decide)
      · intro hn
        exfalso
        apply hn
        rcases h with (h | h) | h
        · exact Or.inl h
        · exact Or.inr (Or.inl h)
        · exact Or.inr (Or.inr h)
  · rw [if_neg h]
    simp only [Bool.or_eq_true] at h
    have hn : ¬ (jsIncludes ((c.title.map toLowerCase).getD "") (toLowerCase value) = true ∨
        jsIncludes ((c.organizer.map toLowerCase).getD "") (toLowerCase value) = true ∨
        jsIncludes ((c.location.map toLowerCase).getD "") (toLowerCase value) = true) := by
      rintro (h1 | h1 | h1)
      · exact h (Or.inl (Or.inl h1))
      · exact h (Or.inl (Or.inr h1))
      · exact h (Or.inr h1)
    refine ⟨rfl, rfl, rfl, ?_, ?_⟩
    · constructor
      · intro hd
        have hd' : ("none" : String) = "block" := hd
        exact absurd hd' (by decide)
      · intro hp; exact absurd hp hn
    · constructor
      · intro _; exact hn
      · intro _; rfl

/-! ## The CSRF token: main results -/

theorem getCSRFToken_meta (content : Option String) (cookie : String) :
    getCSRFToken (some content) cookie = content := rfl

/-- C15, the failing input: no meta tag, and the cookies `sessionid` with
the value `xyz` and `csrftoken` with the value `ab=cd`.  The cookie string
is `sessionid=xyz; csrftoken=ab=cd`; `getCSRFToken` finds the row of the
cookie and returns `ab`, the piece between its first two `=`, not the value
`ab=cd`.  The same cookie with the value `abcd` is returned whole. -/
theorem getCSRFToken_cuts_value_at_equals :
    cookieString [("sessionid", "xyz"), ("csrftoken", "ab=cd")] =
        "sessionid=xyz; csrftoken=ab=cd" ∧
      getCSRFToken none (cookieString [("sessionid", "xyz"), ("csrftoken", "ab=cd")]) =
        some "ab" ∧
      getCSRFToken none (cookieString [("sessionid", "xyz"), ("csrftoken", "abcd")]) =
        some "abcd" := by
  refine ⟨by decide, by decide, by decide⟩

/-- C16 (as amended): whenever `getCSRFToken` returns a token that is not
the empty string, `getCSRFHeaders` returns the two entries `X-CSRFToken`
with that token and `Content-Type` with
`application/x-www-form-urlencoded`; when `getCSRFToken` returns `null` or
the empty string, the headers are empty. -/
theorem getCSRFHeaders_of_token (metaTag : Option (Option String)) (cookie : String) :
    (∀ t, getCSRFToken metaTag cookie = some t → t ≠ "" →
        getCSRFHeaders metaTag cookie =
          [("X-CSRFToken", t), ("Content-Type", "application/x-www-form-urlencoded")]) ∧
      (getCSRFToken metaTag cookie = none ∨ getCSRFToken metaTag cookie = some "" →
        getCSRFHeaders metaTag cookie = []) := by
  constructor
  · intro t ht hne
    unfold getCSRFHeaders
    rw [ht]
    simp [hne]
  · rintro (h | h)
    · unfold getCSRFHeaders
      rw [h]
    · unfold getCSRFHeaders
      rw [h]
      simp

/-- C16, witness: a meta tag with the content `tok123`. -/
theorem getCSRFHeaders_of_token_witness :
    getCSRFToken (some (some "tok123")) "csrftoken=other" = some "tok123" ∧
      "tok123" ≠ "" ∧
      getCSRFHeaders (some (some "tok123")) "csrftoken=other" =
        [("X-CSRFToken", "tok123"), ("Content-Type", "application/x-www-form-urlencoded")] :=
  ⟨rfl, by decide,
    (getCSRFHeaders_of_token (some (some "tok123")) "csrftoken=other").1 "tok123" rfl
      (by decide)⟩

/-- C16, counterexample: a meta tag whose content is the empty string, and
a `csrftoken` cookie whose value is the empty string.  In both cases
`getCSRFToken` finds the token, the empty string and not `null`, and
`getCSRFHeaders` returns no header at all. -/
theorem getCSRFHeaders_drops_empty_token :
    getCSRFToken (some (some "")) "" = some "" ∧ getCSRFHeaders (some (some "")) "" = [] ∧
      getCSRFToken none (cookieString [("csrftoken", "")]) = some "" ∧
      getCSRFHeaders none (cookieString [("csrftoken", "")]) = [] := by
  refine ⟨by decide, by decide, by decide, by decide⟩

/-! ## File previews: main result -/

theorem preview_handlers_on_image (f : File) (h : jsStartsWith f.type "image/" = true) :
    handleFile (some f) = ⟨some f, [], false⟩ ∧
      organizerProfileUploadChange (some f) = ⟨some f, [], false⟩ ∧
      studentProfileUploadChange (some f) = ⟨some f, [], false⟩ := by
  simp [handleFile, organizerProfileUploadChange, studentProfileUploadChange, h]

theorem organizerProfileUploadChange_rejects (f : File)
    (h : jsStartsWith f.type "image/" = false) :
    organizerProfileUploadChange (some f) =
      ⟨none, ["Please select a valid image file."], true⟩ := by
  simp [organizerProfileUploadChange, h]

/-- C17, the failing input: a file of the type `application/pdf`.  The
profile upload of the organizer page rejects it as the claim says: nothing
is read, the notice is raised, the input is cleared.  `handleFile` reads
nothing but raises no notice and does not clear the input.  The profile
upload of the student page has no type check: it hands the file to the
reader for the preview, raises no notice and does not clear the input. -/
theorem preview_handlers_on_pdf :
    jsStartsWith pdfFile.type "image/" = false ∧
      organizerProfileUploadChange (some pdfFile) =
        ⟨none, ["Please select a valid image file."], true⟩ ∧
      handleFile (some pdfFile) = ⟨none, [], false⟩ ∧
      studentProfileUploadChange (some pdfFile) = ⟨some pdfFile, [], false⟩ := by
  refine ⟨by decide, by decide, by decide, by decide⟩

/-! ## The organizer signup form: main result -/

/-- C18: for every password and confirmation the submit handler of the
organizer signup form calls `preventDefault` exactly when the two strings
differ or the password has a `length` below 8; it raises the one notice
about the mismatch when they differ, the one notice about the length when
they are equal and too short, and no notice otherwise, so one notice when it
aborts and none when it does not. -/
theorem signup_aborts_iff_mismatch_or_short (password confirmPassword : String) :
    ((organizerSignupSubmit password confirmPassword).defaultPrevented = true ↔
        password ≠ confirmPassword ∨ jsLength password < 8) ∧
      (password ≠ confirmPassword →
        (organizerSignupSubmit password confirmPassword).alerts =
          ["Passwords do not match. Please check and try again."]) ∧
      (password = confirmPassword → jsLength password < 8 →
        (organizerSignupSubmit password confirmPassword).alerts =
          ["Password must be at least 8 characters long."]) ∧
      (password = confirmPassword → 8 ≤ jsLength password →
        (organizerSignupSubmit password confirmPassword).alerts = []) ∧
      (organizerSignupSubmit password confirmPassword).alerts.length =
        if (organizerSignupSubmit password confirmPassword).defaultPrevented = true then 1
        else 0 := by
  unfold organizerSignupSubmit
  by_cases hne : password ≠ confirmPassword
  · simp [hne]
  · have heq : password = confirmPassword := not_not.mp hne
    subst heq
    by_cases hlen : jsLength password < 8
    · simp [hlen]
    · simp [hlen]

/-- C18, witness: a mismatch, a matching pair that is too short, and a
matching pair of eight characters. -/
theorem signup_aborts_iff_mismatch_or_short_witness :
    organizerSignupSubmit "secret12" "secret13" =
        ⟨true, ["Passwords do not match. Please check and try again."]⟩ ∧
      (organizerSignupSubmit "short" "short").alerts =
        ["Password must be at least 8 characters long."] ∧
      (organizerSignupSubmit "secret12" "secret12").alerts = [] :=
  ⟨by decide,
    (signup_aborts_iff_mismatch_or_short "short" "short").2.2.1 rfl (by decide),
    (signup_aborts_iff_mismatch_or_short "secret12" "secret12").2.2.2.1 rfl (by decide)⟩

/-! ## The navigation intent: precedence -/

/-- C21: whatever the selector engine, the start-up check completes with
one call of `showView`, on a view chosen by a fixed precedence, and removes
only the key it acted on.  If
`showCreateEvent` holds `true` the view is `create-event-view` and
`showCreateEvent` is removed, every other key, `showProfile` too, keeping
what it held.  Otherwise, if `showProfile` holds `true` the view is
`profile-page` and `showProfile` is removed, every other key keeping what it
held, also `showCreateEvent` with a value other than `true`.  Otherwise the
view is `dashboard-overview` and the store is the one it started with.  In
each case a view container is visible afterwards exactly when its id is the
chosen view. -/
theorem checkStoredNavigation_precedence (engine : SelectorEngine) (ls : Storage)
    (doc : Doc) :
    (getItem "showCreateEvent" ls = some "true" →
      ∃ doc',
        checkStoredNavigation engine ls doc = .ok (removeItem "showCreateEvent" ls, doc') ∧
        showView engine "create-event-view" doc = .ok doc' ∧
        (∀ e ∈ doc', e.dashboardView = true →
          (e.visible = true ↔ e.id = "create-event-view")) ∧
        getItem "showCreateEvent" (removeItem "showCreateEvent" ls) = none ∧
        ∀ key, key ≠ "showCreateEvent" →
          getItem key (removeItem "showCreateEvent" ls) = getItem key ls) ∧
    (getItem "showCreateEvent" ls ≠ some "true" → getItem "showProfile" ls = some "true" →
      ∃ doc',
        checkStoredNavigation engine ls doc = .ok (removeItem "showProfile" ls, doc') ∧
        showView engine "profile-page" doc = .ok doc' ∧
        (∀ e ∈ doc', e.dashboardView = true → (e.visible = true ↔ e.id = "profile-page")) ∧
        getItem "showProfile" (removeItem "showProfile" ls) = none ∧
        ∀ key, key ≠ "showProfile" →
          getItem key (removeItem "showProfile" ls) = getItem key ls) ∧
    (getItem "showCreateEvent" ls ≠ some "true" → getItem "showProfile" ls ≠ some "true" →
      ∃ doc', checkStoredNavigation engine ls doc = .ok (ls, doc') ∧
        showView engine "dashboard-overview" doc = .ok doc' ∧
        (∀ e ∈ doc', e.dashboardView = true →
          (e.visible = true ↔ e.id = "dashboard-overview"))) := by
  refine ⟨?_, ?_, ?_⟩
  · intro hc
    have hs := showView_safe engine "create-event-view" doc (by decide)
    exact ⟨_, checkStoredNavigation_create engine ls doc hc, hs,
      (showView_views engine "create-event-view" doc _ hs).2.1, getItem_removeItem_self _ _,
      fun key hk => getItem_removeItem_ne key _ ls hk⟩
  · intro hc hp
    have hs := showView_safe engine "profile-page" doc (by decide)
    exact ⟨_, checkStoredNavigation_profile engine ls doc hc hp, hs,
      (showView_views engine "profile-page" doc _ hs).2.1, getItem_removeItem_self _ _,
      fun key hk => getItem_removeItem_ne key _ ls hk⟩
  · intro hc hp
    have hs := showView_safe engine "dashboard-overview" doc (by decide)
    exact ⟨_, checkStoredNavigation_default engine ls doc hc hp, hs,
      (showView_views engine "dashboard-overview" doc _ hs).2.1⟩

/-- C21, witness: the store in which both keys hold `true`, where
`showCreateEvent` wins, and the store in which `showProfile` holds `false`,
which counts as no intent and is left as it is. -/
theorem checkStoredNavigation_precedence_witness :
    getItem "showCreateEvent" bothIntentsStore = some "true" ∧
      (∃ doc', checkStoredNavigation rejectingEngine bothIntentsStore twoViewPage =
          .ok (removeItem "showCreateEvent" bothIntentsStore, doc') ∧
        showView rejectingEngine "create-event-view" twoViewPage = .ok doc' ∧
        (∀ e ∈ doc', e.dashboardView = true →
          (e.visible = true ↔ e.id = "create-event-view")) ∧
        getItem "showCreateEvent" (removeItem "showCreateEvent" bothIntentsStore) = none ∧
        ∀ key, key ≠ "showCreateEvent" →
          getItem key (removeItem "showCreateEvent" bothIntentsStore) =
            getItem key bothIntentsStore) ∧
      getItem "showCreateEvent" noIntentStore ≠ some "true" ∧
      getItem "showProfile" noIntentStore ≠ some "true" ∧
      (∃ doc',
        checkStoredNavigation rejectingEngine noIntentStore twoViewPage =
          .ok (noIntentStore, doc') ∧
        showView rejectingEngine "dashboard-overview" twoViewPage = .ok doc' ∧
        (∀ e ∈ doc', e.dashboardView = true →
          (e.visible = true ↔ e.id = "dashboard-overview"))) :=
  ⟨by decide,
    (checkStoredNavigation_precedence rejectingEngine bothIntentsStore twoViewPage).1
      (by decide),
    by decide, by decide,
    (checkStoredNavigation_precedence rejectingEngine noIntentStore twoViewPage).2.2
      (by decide) (by decide)⟩

end Dashboard
